import Mathlib

/-!
# TEDI Bénin front end: session store, API gateway and navigation guard

A shallow embedding of

* `frontend/src/stores/auth.js` (the Pinia store `useAuthStore`),
* `frontend/src/services/api.js` (the axios client, its two interceptors and
  the operations built on it),
* `frontend/src/router/index.js` (the route table and `router.beforeEach`),
* `frontend/src/utils/formatters.js` (`formatWithSpaces` and `formatPrice`).

Mutable browser state (the store's refs, `localStorage`, `window.location.href`)
is passed explicitly as a `World`.  An `async` action has one `await`.  The
functions `login`, `checkAuth` and `register` give the action run alone, with
the reply of its remote call as an argument; `Runtime` runs the pieces before
and after the `await` as separate events, so that calls may overlap.
JavaScript strings are Lean strings; `null` and `undefined` are both `none`.
-/

namespace Tedi

/-! ## JavaScript helpers -/

/-- Truthiness of a JavaScript string: every string but the empty one. -/
def truthy (s : String) : Bool := s != ""

/-- The expression `x || d` for `x` a string, `null` or `undefined`. -/
def orString (x : Option String) (d : String) : String :=
  match x with
  | some v => if truthy v then v else d
  | none => d

/-- Does the character list `s` start with `pat`? -/
def startsWithChars : List Char → List Char → Bool
  | _, [] => true
  | [], _ :: _ => false
  | c :: cs, p :: ps => c == p && startsWithChars cs ps

/-- Does `pat` occur in `s` at some offset? -/
def includesChars : List Char → List Char → Bool
  | [], pat => startsWithChars [] pat
  | c :: cs, pat => startsWithChars (c :: cs) pat || includesChars cs pat

/-- The method `String.prototype.includes`. -/
def includes (s pat : String) : Bool := includesChars s.data pat.data

/-! ## localStorage -/

/-- The browser's `localStorage`: a list of entries with their keys. -/
structure LocalStorage where
  entries : List (String × String)
deriving DecidableEq, Repr

/-- First value stored under `k` in a list of entries. -/
def lookupEntry (k : String) : List (String × String) → Option String
  | [] => none
  | (k', v) :: rest => if k' = k then some v else lookupEntry k rest

/-- Overwrite the entry under `k`, or append a new one. -/
def putEntry (k v : String) : List (String × String) → List (String × String)
  | [] => [(k, v)]
  | (k', v') :: rest => if k' = k then (k, v) :: rest else (k', v') :: putEntry k v rest

/-- The call `localStorage.getItem(k)`; `none` is `null`. -/
def LocalStorage.getItem (ls : LocalStorage) (k : String) : Option String :=
  lookupEntry k ls.entries

/-- The call `localStorage.setItem(k, v)`. -/
def LocalStorage.setItem (ls : LocalStorage) (k v : String) : LocalStorage :=
  { entries := putEntry k v ls.entries }

/-- The call `localStorage.removeItem(k)`. -/
def LocalStorage.removeItem (ls : LocalStorage) (k : String) : LocalStorage :=
  { entries := ls.entries.filter (fun e => e.1 != k) }

/-- The name of the one persisted entry, `'tedi_api_key'`. -/
def storageKey : String := "tedi_api_key"

/-! ## Session store (`stores/auth.js`) -/

/-- The record `response.data.data` of a validate or register response. -/
structure KeyInfo where
  is_admin : Bool
  can_export : Bool
  can_api_direct : Bool
  email : String
  id : Nat
deriving DecidableEq, Repr

/-- The four refs of `useAuthStore`. -/
structure AuthStore where
  apiKey : String
  keyInfo : Option KeyInfo
  loading : Bool
  error : Option String
deriving DecidableEq, Repr

/-- The initial refs, `auth.js` lines 7-10. -/
def initStore (ls : LocalStorage) : AuthStore :=
  { apiKey := orString (ls.getItem storageKey) ""
    keyInfo := none
    loading := false
    error := none }

/-- The getter `isAuthenticated`: `!!apiKey.value`. -/
def isAuthenticated (s : AuthStore) : Bool := truthy s.apiKey

/-- The getter `isAdmin`: `keyInfo.value?.is_admin || false`. -/
def isAdmin (s : AuthStore) : Bool :=
  match s.keyInfo with
  | some k => k.is_admin || false
  | none => false

/-- The getter `canExport`. -/
def canExport (s : AuthStore) : Bool :=
  match s.keyInfo with
  | some k => k.can_export || false
  | none => false

/-- The getter `canApiDirect`. -/
def canApiDirect (s : AuthStore) : Bool :=
  match s.keyInfo with
  | some k => k.can_api_direct || false
  | none => false

/-- Everything the three modules read or write. -/
structure World where
  store : AuthStore
  localStorage : LocalStorage
  location : String
deriving DecidableEq, Repr

/-- The world right after the store is created on a page whose address is `loc`. -/
def initWorld (ls : LocalStorage) (loc : String) : World :=
  { store := initStore ls, localStorage := ls, location := loc }

/-! ## API gateway (`services/api.js`) -/

/-- An axios request configuration. -/
structure RequestConfig where
  method : String
  url : Option String
  headers : List (String × String)
  params : List (String × String)
  data : Option String
  responseType : Option String
deriving DecidableEq, Repr

/-- The part of a failed HTTP response that the code reads. -/
structure ErrorResponse where
  status : Nat
  message : Option String
deriving DecidableEq, Repr

/-- The error object handed to a rejected axios call. -/
structure AxiosError where
  config : Option RequestConfig
  response : Option ErrorResponse
deriving DecidableEq, Repr

/-- The instance defaults of `axios.create`. -/
def defaultHeaders : List (String × String) := [("Content-Type", "application/json")]

/-- Is a header of this name present? -/
def hasHeader (c : RequestConfig) (name : String) : Bool :=
  (lookupEntry name c.headers).isSome

/-- Request interceptor, `api.js` lines 14-21. -/
def requestInterceptor (ls : LocalStorage) (config : RequestConfig) : RequestConfig :=
  match ls.getItem storageKey with
  | some apiKey =>
    if truthy apiKey then
      { config with headers := putEntry "X-API-KEY" apiKey config.headers }
    else config
  | none => config

/-- The test `if (apiKey)` of the request interceptor: `localStorage` holds a
non-empty credential. -/
def holdsCredential (ls : LocalStorage) : Bool :=
  match ls.getItem storageKey with
  | some apiKey => truthy apiKey
  | none => false

/-- The expression `error.config?.url?.includes('/admin/')`; `none` is `undefined`. -/
def isAdminEndpoint (error : AxiosError) : Option Bool :=
  match error.config with
  | none => none
  | some c =>
    match c.url with
    | none => none
    | some u => some (includes u "/admin/")

/-- The expression `error.response?.status === 401`. -/
def isUnauthorized (error : AxiosError) : Bool :=
  match error.response with
  | some r => r.status == 401
  | none => false

/-- Response interceptor, rejection handler, `api.js` lines 30-39.  The second
component is the error the returned promise rejects with. -/
def responseRejected (w : World) (error : AxiosError) : World × AxiosError :=
  if isUnauthorized error && !((isAdminEndpoint error).getD false) then
    ({ w with
        localStorage := w.localStorage.removeItem storageKey
        location := "/login" }, error)
  else (w, error)

/-- The merged configuration of `apiClient.get(url, config)` and its siblings:
the instance defaults, then the headers given with the call. -/
def mkRequest (method url : String) (headers params : List (String × String))
    (data : Option String) (responseType : Option String) : RequestConfig :=
  { method := method
    url := some url
    headers := headers.foldl (fun h e => putEntry e.1 e.2 h) defaultHeaders
    params := params
    data := data
    responseType := responseType }

/-- The helper `export._cleanFilters`: drop `null`, `undefined` and `''` values. -/
def cleanFilters (filters : List (String × Option String)) : List (String × String) :=
  filters.foldl
    (fun cleaned e =>
      match e.2 with
      | some v => if v != "" then putEntry e.1 v cleaned else cleaned
      | none => cleaned)
    []

/-- The object literal `{ format, ...this._cleanFilters(filters) }`. -/
def exportParams (format : String) (filters : List (String × Option String)) :
    List (String × String) :=
  (cleanFilters filters).foldl (fun p e => putEntry e.1 e.2 p) [("format", format)]

/-- The expression `format === 'json' ? 'json' : 'blob'`. -/
def exportResponseType (format : String) : String :=
  if format = "json" then "json" else "blob"

/-- Every operation of the default export of `api.js`, with its arguments.
Identifiers are the strings their template literals interpolate, request
bodies are their serialised text. -/
inductive ApiCall where
  | publicGetStats
  | publicGetCommunes
  | publicGetCommuneSummary (communeId : String)
  | agricultureGetCommunes
  | agricultureGetCommune (id : String)
  | agricultureGetCrops
  | agricultureGetCrop (id : String)
  | agricultureGetIndex (params : List (String × String))
  | agricultureGetIndexDetail (communeId cropId year : String)
  | agricultureGetAggregatedStats (params : List (String × String))
  | realestateGetPropertyTypes
  | realestateGetPropertyType (id : String)
  | realestateGetIndex (params : List (String × String))
  | realestateGetStats (id : String)
  | realestateGetAggregatedStats (params : List (String × String))
  | employmentGetJobCategories
  | employmentGetJobCategory (id : String)
  | employmentGetIndex (params : List (String × String))
  | employmentGetStats (id : String)
  | employmentGetAggregatedStats (params : List (String × String))
  | businessGetSectors
  | businessGetSector (id : String)
  | businessGetIndex (params : List (String × String))
  | businessGetStats (id : String)
  | businessGetAggregatedStats (params : List (String × String))
  | authValidateKey (key : String)
  | authRegister (data : String)
  | authCreateKey (data : String)
  | authGetKeys (email : String)
  | authGetKey (id : String)
  | authUpdateKey (id data : String)
  | authDeleteKey (id : String)
  | adminGetKeys (adminSecret : String)
  | adminCreateKey (adminSecret data : String)
  | adminUpdateKey (adminSecret keyId data : String)
  | adminDeleteKey (adminSecret keyId : String)
  | exportGetFormats
  | exportAgriculture (format : String) (filters : List (String × Option String))
  | exportRealestate (format : String) (filters : List (String × Option String))
  | exportEmployment (format : String) (filters : List (String × Option String))
  | exportBusiness (format : String) (filters : List (String × Option String))
deriving DecidableEq, Repr

/-- Is the call one of the four operations of the `admin` group? -/
def ApiCall.isAdminOp : ApiCall → Bool
  | .adminGetKeys _ => true
  | .adminCreateKey _ _ => true
  | .adminUpdateKey _ _ _ => true
  | .adminDeleteKey _ _ => true
  | _ => false

/-- The request each operation hands to the axios instance, `api.js` lines 42-228. -/
def ApiCall.request : ApiCall → RequestConfig
  | .publicGetStats => mkRequest "get" "/public/stats" [] [] none none
  | .publicGetCommunes => mkRequest "get" "/public/communes" [] [] none none
  | .publicGetCommuneSummary communeId =>
    mkRequest "get" ("/public/communes/" ++ communeId ++ "/summary") [] [] none none
  | .agricultureGetCommunes => mkRequest "get" "/agriculture/communes" [] [] none none
  | .agricultureGetCommune id =>
    mkRequest "get" ("/agriculture/communes/" ++ id) [] [] none none
  | .agricultureGetCrops => mkRequest "get" "/agriculture/crops" [] [] none none
  | .agricultureGetCrop id => mkRequest "get" ("/agriculture/crops/" ++ id) [] [] none none
  | .agricultureGetIndex params => mkRequest "get" "/agriculture/index" [] params none none
  | .agricultureGetIndexDetail communeId cropId year =>
    mkRequest "get" ("/agriculture/index/" ++ communeId ++ "/" ++ cropId ++ "/" ++ year)
      [] [] none none
  | .agricultureGetAggregatedStats params =>
    mkRequest "get" "/agriculture/stats/aggregated" [] params none none
  | .realestateGetPropertyTypes => mkRequest "get" "/realestate/property-types" [] [] none none
  | .realestateGetPropertyType id =>
    mkRequest "get" ("/realestate/property-types/" ++ id) [] [] none none
  | .realestateGetIndex params => mkRequest "get" "/realestate/index" [] params none none
  | .realestateGetStats id => mkRequest "get" ("/realestate/stats/" ++ id) [] [] none none
  | .realestateGetAggregatedStats params =>
    mkRequest "get" "/realestate/stats/aggregated" [] params none none
  | .employmentGetJobCategories => mkRequest "get" "/employment/categories" [] [] none none
  | .employmentGetJobCategory id =>
    mkRequest "get" ("/employment/categories/" ++ id) [] [] none none
  | .employmentGetIndex params => mkRequest "get" "/employment/index" [] params none none
  | .employmentGetStats id => mkRequest "get" ("/employment/stats/" ++ id) [] [] none none
  | .employmentGetAggregatedStats params =>
    mkRequest "get" "/employment/stats/aggregated" [] params none none
  | .businessGetSectors => mkRequest "get" "/business/sectors" [] [] none none
  | .businessGetSector id => mkRequest "get" ("/business/sectors/" ++ id) [] [] none none
  | .businessGetIndex params => mkRequest "get" "/business/index" [] params none none
  | .businessGetStats id => mkRequest "get" ("/business/stats/" ++ id) [] [] none none
  | .businessGetAggregatedStats params =>
    mkRequest "get" "/business/stats/aggregated" [] params none none
  | .authValidateKey key => mkRequest "get" "/auth/validate" [] [("key", key)] none none
  | .authRegister data => mkRequest "post" "/auth/register" [] [] (some data) none
  | .authCreateKey data => mkRequest "post" "/auth/keys" [] [] (some data) none
  | .authGetKeys email => mkRequest "get" "/auth/keys" [] [("email", email)] none none
  | .authGetKey id => mkRequest "get" ("/auth/keys/" ++ id) [] [] none none
  | .authUpdateKey id data => mkRequest "patch" ("/auth/keys/" ++ id) [] [] (some data) none
  | .authDeleteKey id => mkRequest "delete" ("/auth/keys/" ++ id) [] [] none none
  | .adminGetKeys adminSecret =>
    mkRequest "get" "/auth/admin/keys" [("X-Admin-Secret", adminSecret)] [] none none
  | .adminCreateKey adminSecret data =>
    mkRequest "post" "/auth/admin/keys" [("X-Admin-Secret", adminSecret)] [] (some data) none
  | .adminUpdateKey adminSecret keyId data =>
    mkRequest "patch" ("/auth/admin/keys/" ++ keyId) [("X-Admin-Secret", adminSecret)] []
      (some data) none
  | .adminDeleteKey adminSecret keyId =>
    mkRequest "delete" ("/auth/admin/keys/" ++ keyId) [("X-Admin-Secret", adminSecret)] []
      none none
  | .exportGetFormats => mkRequest "get" "/export/formats" [] [] none none
  | .exportAgriculture format filters =>
    mkRequest "get" "/export/agriculture" [] (exportParams format filters) none
      (some (exportResponseType format))
  | .exportRealestate format filters =>
    mkRequest "get" "/export/realestate" [] (exportParams format filters) none
      (some (exportResponseType format))
  | .exportEmployment format filters =>
    mkRequest "get" "/export/employment" [] (exportParams format filters) none
      (some (exportResponseType format))
  | .exportBusiness format filters =>
    mkRequest "get" "/export/business" [] (exportParams format filters) none
      (some (exportResponseType format))

/-- What the remote service does with one request: the promise resolves with
`response.data`, or rejects, with or without an HTTP response. -/
inductive Reply (α : Type) where
  | resolved (data : α)
  | rejected (response : Option ErrorResponse)
deriving DecidableEq, Repr

/-- The request as it leaves the client. -/
def outgoing (ls : LocalStorage) (call : ApiCall) : RequestConfig :=
  requestInterceptor ls call.request

/-- One call through `apiClient`: request interceptor, remote reply, response
interceptor.  The result is what the awaiting caller sees. -/
def send {α : Type} (w : World) (call : ApiCall) (reply : Reply α) :
    World × Except AxiosError α :=
  match reply with
  | .resolved d => (w, .ok d)
  | .rejected r =>
    let out := responseRejected w
      { config := some (outgoing w.localStorage call), response := r }
    (out.1, .error out.2)

/-! ## Store actions (`stores/auth.js`) -/

/-- Body of a resolved `GET /auth/validate`: `response.data`. -/
structure ValidateData where
  valid : Bool
  message : Option String
  data : Option KeyInfo
deriving DecidableEq, Repr

/-- Body of a resolved `POST /auth/register`: `response.data`. -/
structure RegisterData where
  api_key : Option String
  data : Option KeyInfo
deriving DecidableEq, Repr

/-- The object `register` returns. -/
structure RegisterResult where
  success : Bool
  data : Option RegisterData
  error : Option String
deriving DecidableEq, Repr

/-- The expression `err.response?.data?.message`. -/
def errMessage (err : AxiosError) : Option String :=
  match err.response with
  | some r => r.message
  | none => none

/-- Assign the `loading` ref. -/
def setLoading (w : World) (b : Bool) : World :=
  { w with store := { w.store with loading := b } }

/-- Assign the `error` ref. -/
def setError (w : World) (e : Option String) : World :=
  { w with store := { w.store with error := e } }

/-- The action `login(key)`, `auth.js` lines 19-41. -/
def login (w : World) (key : String) (reply : Reply ValidateData) : World × Bool :=
  let w0 := setError (setLoading w true) none
  let body : World × Bool :=
    match send w0 (.authValidateKey key) reply with
    | (w1, .ok data) =>
      if data.valid then
        ({ w1 with
            store := { w1.store with apiKey := key, keyInfo := data.data }
            localStorage := w1.localStorage.setItem storageKey key }, true)
      else (setError w1 data.message, false)
    | (w1, .error err) =>
      (setError w1 (some (orString (errMessage err) "Invalid API key")), false)
  (setLoading body.1 false, body.2)

/-- The action `logout()`, `auth.js` lines 43-47. -/
def logout (w : World) : World :=
  { w with
      store := { w.store with apiKey := "", keyInfo := none }
      localStorage := w.localStorage.removeItem storageKey }

/-- The action `checkAuth()`, `auth.js` lines 49-65. -/
def checkAuth (w : World) (reply : Reply ValidateData) : World × Bool :=
  if !truthy w.store.apiKey then (w, false)
  else
    match send w (.authValidateKey w.store.apiKey) reply with
    | (w1, .ok data) =>
      if data.valid then
        ({ w1 with store := { w1.store with keyInfo := data.data } }, true)
      else (logout w1, false)
    | (w1, .error _) => (logout w1, false)

/-- The action `register(userData)`, `auth.js` lines 68-90. -/
def register (w : World) (userData : String) (reply : Reply RegisterData) :
    World × RegisterResult :=
  let w0 := setError (setLoading w true) none
  let body : World × RegisterResult :=
    match send w0 (.authRegister userData) reply with
    | (w1, .ok data) =>
      match data.api_key with
      | some k =>
        if truthy k then
          ({ w1 with
              store := { w1.store with apiKey := k, keyInfo := data.data }
              localStorage := w1.localStorage.setItem storageKey k },
            { success := true, data := some data, error := none })
        else (w1, { success := false, data := none, error := some "Registration failed" })
      | none => (w1, { success := false, data := none, error := some "Registration failed" })
    | (w1, .error err) =>
      let w2 := setError w1 (some (orString (errMessage err) "Registration failed"))
      (w2, { success := false, data := none, error := w2.store.error })
  (setLoading body.1 false, body.2)

/-- Does the reply reject the credential: `valid` false, or the call failed? -/
def Reply.rejectsKey : Reply ValidateData → Bool
  | .resolved d => !d.valid
  | .rejected _ => true

/-- The test `if (response.data.api_key)` of `register`. -/
def RegisterData.hasKey (d : RegisterData) : Bool :=
  match d.api_key with
  | some k => truthy k
  | none => false

/-! ## The actions split at their `await`

Between the moment an action issues its request and the moment its
continuation runs, any other code of the page may run: other actions may start,
and other continuations may resume.  Each piece below runs to completion. -/

/-- The arrival of the reply to a request that left the client with `config`:
a resolved reply passes through, a rejected one goes through the response
interceptor; the second component is what the awaiting action will see. -/
def settle {α : Type} (w : World) (config : RequestConfig) (reply : Reply α) :
    World × Except AxiosError α :=
  match reply with
  | .resolved d => (w, .ok d)
  | .rejected r =>
    let out := responseRejected w { config := some config, response := r }
    (out.1, .error out.2)

/-- The action `login` up to its `await`, `auth.js` lines 20-21. -/
def loginStart (w : World) : World := setError (setLoading w true) none

/-- The action `login` from its `await` on, `auth.js` lines 26-40. -/
def loginResume (w : World) (key : String) (outcome : Except AxiosError ValidateData) :
    World × Bool :=
  let body : World × Bool :=
    match outcome with
    | .ok data =>
      if data.valid then
        ({ w with
            store := { w.store with apiKey := key, keyInfo := data.data }
            localStorage := w.localStorage.setItem storageKey key }, true)
      else (setError w data.message, false)
    | .error err => (setError w (some (orString (errMessage err) "Invalid API key")), false)
  (setLoading body.1 false, body.2)

/-- The action `checkAuth` from its `await` on, `auth.js` lines 54-64.  It does
not read `apiKey` again. -/
def checkAuthResume (w : World) (outcome : Except AxiosError ValidateData) : World × Bool :=
  match outcome with
  | .ok data =>
    if data.valid then ({ w with store := { w.store with keyInfo := data.data } }, true)
    else (logout w, false)
  | .error _ => (logout w, false)

/-- The action `register` up to its `await`, `auth.js` lines 69-70. -/
def registerStart (w : World) : World := setError (setLoading w true) none

/-- The action `register` from its `await` on, `auth.js` lines 75-89. -/
def registerResume (w : World) (outcome : Except AxiosError RegisterData) :
    World × RegisterResult :=
  let body : World × RegisterResult :=
    match outcome with
    | .ok data =>
      match data.api_key with
      | some k =>
        if truthy k then
          ({ w with
              store := { w.store with apiKey := k, keyInfo := data.data }
              localStorage := w.localStorage.setItem storageKey k },
            { success := true, data := some data, error := none })
        else (w, { success := false, data := none, error := some "Registration failed" })
      | none => (w, { success := false, data := none, error := some "Registration failed" })
    | .error err =>
      let w2 := setError w (some (orString (errMessage err) "Registration failed"))
      (w2, { success := false, data := none, error := w2.store.error })
  (setLoading body.1 false, body.2)

/-- A call of a store action that is suspended at its `await`: waiting for the
reply, or holding the outcome its continuation will resume with. -/
inductive Task where
  | loginAwait (key : String) (config : RequestConfig)
  | loginSettled (key : String) (outcome : Except AxiosError ValidateData)
  | checkAuthAwait (config : RequestConfig)
  | checkAuthSettled (outcome : Except AxiosError ValidateData)
  | registerAwait (config : RequestConfig)
  | registerSettled (outcome : Except AxiosError RegisterData)

/-- The page while it runs: the world and the suspended calls, oldest first. -/
structure Runtime where
  world : World
  tasks : List Task

/-- The page right after the store is created. -/
def initRuntime (ls : LocalStorage) (loc : String) : Runtime :=
  { world := initWorld ls loc, tasks := [] }

/-- One uninterrupted piece of execution: the application calls an action (the
piece runs up to the action's `await`), the remote reply to the suspended call
number `i` arrives, or the settled call number `i` resumes. -/
inductive Event where
  | login (key : String)
  | logout
  | checkAuth
  | register (userData : String)
  | validateReply (i : Nat) (reply : Reply ValidateData)
  | registerReply (i : Nat) (reply : Reply RegisterData)
  | resume (i : Nat)

/-- The page after one event.  An event that does not apply (no such call, or
a call in another phase) leaves the page as it is. -/
def Runtime.step (s : Runtime) : Event → Runtime
  | .login key =>
    { world := loginStart s.world
      tasks := s.tasks ++
        [.loginAwait key (outgoing s.world.localStorage (.authValidateKey key))] }
  | .logout => { s with world := logout s.world }
  | .checkAuth =>
    if !truthy s.world.store.apiKey then s
    else
      { s with
          tasks := s.tasks ++
            [.checkAuthAwait
              (outgoing s.world.localStorage (.authValidateKey s.world.store.apiKey))] }
  | .register userData =>
    { world := registerStart s.world
      tasks := s.tasks ++
        [.registerAwait (outgoing s.world.localStorage (.authRegister userData))] }
  | .validateReply i reply =>
    match s.tasks[i]? with
    | some (.loginAwait key config) =>
      { world := (settle s.world config reply).1
        tasks := s.tasks.set i (.loginSettled key (settle s.world config reply).2) }
    | some (.checkAuthAwait config) =>
      { world := (settle s.world config reply).1
        tasks := s.tasks.set i (.checkAuthSettled (settle s.world config reply).2) }
    | _ => s
  | .registerReply i reply =>
    match s.tasks[i]? with
    | some (.registerAwait config) =>
      { world := (settle s.world config reply).1
        tasks := s.tasks.set i (.registerSettled (settle s.world config reply).2) }
    | _ => s
  | .resume i =>
    match s.tasks[i]? with
    | some (.loginSettled key outcome) =>
      { world := (loginResume s.world key outcome).1, tasks := s.tasks.eraseIdx i }
    | some (.checkAuthSettled outcome) =>
      { world := (checkAuthResume s.world outcome).1, tasks := s.tasks.eraseIdx i }
    | some (.registerSettled outcome) =>
      { world := (registerResume s.world outcome).1, tasks := s.tasks.eraseIdx i }
    | _ => s

/-- The page after a sequence of events, first to last. -/
def Runtime.run (s : Runtime) (events : List Event) : Runtime := events.foldl Runtime.step s

/-- Does the event call `login` with an empty key? -/
def Event.isEmptyLogin : Event → Bool
  | .login key => !truthy key
  | _ => false

/-- Does every positive reply carry key data (`response.data.data` is an
object)?  Replies that the actions treat as a failure are not constrained. -/
def Event.carriesData : Event → Bool
  | .validateReply _ (.resolved d) => !d.valid || d.data.isSome
  | .registerReply _ (.resolved d) => !d.hasKey || d.data.isSome
  | _ => true

/-- Does the event resume a `checkAuth` that was answered `valid = true` with
key data while the in-memory credential is empty (it was cleared during the
`await`)? -/
def Runtime.resumesStale (s : Runtime) : Event → Bool
  | .resume i =>
    match s.tasks[i]? with
    | some (.checkAuthSettled (.ok d)) =>
      d.valid && d.data.isSome && !truthy s.world.store.apiKey
    | _ => false
  | _ => false

/-- No event of the sequence, run from `s`, resumes a stale `checkAuth`. -/
def Runtime.freshResumes (s : Runtime) : List Event → Bool
  | [] => true
  | e :: es => !s.resumesStale e && (s.step e).freshResumes es

/-- The key of a suspended `login` is not empty. -/
def Task.keyTruthy : Task → Bool
  | .loginAwait key _ => truthy key
  | .loginSettled key _ => truthy key
  | _ => true

/-- A settled call with a positive outcome carries key data. -/
def Task.dataCarried : Task → Bool
  | .loginSettled _ (.ok d) => !d.valid || d.data.isSome
  | .checkAuthSettled (.ok d) => !d.valid || d.data.isSome
  | .registerSettled (.ok d) => !d.hasKey || d.data.isSome
  | _ => true

/-- The events of a `login` that runs alone: call, reply, continuation. -/
def sequentialLogin (key : String) (reply : Reply ValidateData) : List Event :=
  [.login key, .validateReply 0 reply, .resume 0]

/-- The events of a `checkAuth` that runs alone. -/
def sequentialCheckAuth (reply : Reply ValidateData) : List Event :=
  [.checkAuth, .validateReply 0 reply, .resume 0]

/-- The events of a `register` that runs alone. -/
def sequentialRegister (userData : String) (reply : Reply RegisterData) : List Event :=
  [.register userData, .registerReply 0 reply, .resume 0]

/-! ## Navigation guard (`router/index.js`) -/

/-- The field `meta` of a route record. -/
structure RouteMeta where
  requiresAuth : Bool
deriving DecidableEq, Repr

/-- What the guard reads of the target location `to`; an unnamed location has
name `none`. -/
structure Route where
  path : String
  name : Option String
  meta : RouteMeta
deriving DecidableEq, Repr

/-- The argument the guard passes to `next`. -/
inductive Navigation where
  | proceed
  | redirect (name : String)
deriving DecidableEq, Repr

/-- The guard `router.beforeEach`, `index.js` lines 170-180, with the world it
leaves behind; `dest` is the source's parameter `to`. -/
def beforeEach (w : World) (dest : Route) : World × Navigation :=
  if dest.meta.requiresAuth && !isAuthenticated w.store then (w, .redirect "login")
  else if dest.name == some "login" && isAuthenticated w.store then
    (w, .redirect "dashboard")
  else (w, .proceed)

/-- The option `routes` of `createRouter`, `index.js` lines 55-166. -/
def routes : List Route :=
  [ { path := "/", name := some "landing", meta := { requiresAuth := false } },
    { path := "/login", name := some "login", meta := { requiresAuth := false } },
    { path := "/dashboard", name := some "dashboard", meta := { requiresAuth := true } },
    { path := "/agriculture", name := some "agriculture", meta := { requiresAuth := true } },
    { path := "/realestate", name := some "realestate", meta := { requiresAuth := true } },
    { path := "/employment", name := some "employment", meta := { requiresAuth := true } },
    { path := "/business", name := some "business", meta := { requiresAuth := true } },
    { path := "/map", name := some "map", meta := { requiresAuth := true } },
    { path := "/api-keys", name := some "api-keys", meta := { requiresAuth := true } },
    { path := "/documentation", name := some "documentation",
      meta := { requiresAuth := false } },
    { path := "/api-reference", name := some "api-reference",
      meta := { requiresAuth := false } },
    { path := "/data-quality", name := some "data-quality", meta := { requiresAuth := false } },
    { path := "/data-sources", name := some "data-sources", meta := { requiresAuth := false } },
    { path := "/support", name := some "support", meta := { requiresAuth := false } },
    { path := "/privacy", name := some "privacy", meta := { requiresAuth := false } },
    { path := "/terms", name := some "terms", meta := { requiresAuth := false } },
    { path := "/license", name := some "license", meta := { requiresAuth := false } },
    { path := "/admin", name := some "admin", meta := { requiresAuth := false } } ]

/-- The decision function of the specification, rule by rule: the session is
given by whether it is authenticated. -/
def decideSpec (requiresAuth isLoginRoute authenticated : Bool) : Navigation :=
  match requiresAuth, isLoginRoute, authenticated with
  | true, _, false => .redirect "login"
  | _, true, true => .redirect "dashboard"
  | _, _, _ => .proceed

/-! ## Key operations by scope -/

/-- The five self-service key operations with their arguments, `api.js` lines
147-161. -/
def selfKeyCalls (email data id : String) : List ApiCall :=
  [.authGetKeys email, .authCreateKey data, .authGetKey id, .authUpdateKey id data,
    .authDeleteKey id]

/-- The four admin key operations with their arguments, `api.js` lines 165-186. -/
def adminKeyCalls (adminSecret keyId data : String) : List ApiCall :=
  [.adminGetKeys adminSecret, .adminCreateKey adminSecret data,
    .adminUpdateKey adminSecret keyId data, .adminDeleteKey adminSecret keyId]

/-- The error axios raises when the request of `call` is answered 401. -/
def unauthorizedOn (ls : LocalStorage) (call : ApiCall) (msg : Option String) : AxiosError :=
  { config := some (outgoing ls call)
    response := some { status := 401, message := msg } }

/-- Does the identifier, once interpolated after `/auth/keys/`, spell `/admin/`:
it starts with `admin/` or contains `/admin/`. -/
def idSpellsAdmin (id : String) : Bool :=
  startsWithChars id.data "admin/".data || includes id "/admin/"

/-! ## Formatters (`utils/formatters.js`) -/

/-- A JavaScript number as the exact fraction `num / den` that the double
denotes, with a sign; `den = 0` stands for `NaN`.  Infinities, subnormal
numbers and overflow are not modelled. -/
structure JsNumber where
  negative : Bool
  num : Nat
  den : Nat
deriving DecidableEq, Repr

/-- The number written as a whole decimal literal; exact below `2^53`. -/
def JsNumber.ofNat (n : Nat) : JsNumber := { negative := false, num := n, den := 1 }

/-- Scale `n / d` by powers of two until the quotient lies in `[2^52, 2^53)`:
the scaled numerator and denominator, then how often the denominator and how
often the numerator was doubled. -/
def normalizeFuel : Nat → Nat → Nat → Nat → Nat → Nat × Nat × Nat × Nat
  | 0, n, d, up, down => (n, d, up, down)
  | fuel + 1, n, d, up, down =>
    if 2 ^ 53 * d ≤ n then normalizeFuel fuel n (2 * d) (up + 1) down
    else if n < 2 ^ 52 * d then normalizeFuel fuel (2 * n) d up (down + 1)
    else (n, d, up, down)

/-- The double nearest to the fraction `num / den`, ties to the even
significand, as a fraction: the rounding of every IEEE operation. -/
def roundToDouble (num den : Nat) : Nat × Nat :=
  if num = 0 ∨ den = 0 then (num, den)
  else
    let scaled := normalizeFuel 2200 num den 0 0
    let n := scaled.1
    let d := scaled.2.1
    let q := n / d
    let r := n % d
    let m := if d < 2 * r then q + 1 else if 2 * r = d then q + q % 2 else q
    (m * 2 ^ scaled.2.2.1, 2 ^ scaled.2.2.2)

/-- The call `isNaN(x)`. -/
def JsNumber.isNaN (x : JsNumber) : Bool := x.den == 0

/-- The call `Math.abs(x)`. -/
def JsNumber.abs (x : JsNumber) : JsNumber := { x with negative := false }

/-- The test `x < 0`. -/
def JsNumber.ltZero (x : JsNumber) : Bool := x.negative && x.num != 0

/-- The test `x >= k` for a non-negative `x` and a whole `k`. -/
def JsNumber.geNat (x : JsNumber) (k : Nat) : Bool := decide (k * x.den ≤ x.num)

/-- The quotient `x / k` for a whole `k` that is a double: the exact quotient
rounded to the nearest double. -/
def JsNumber.divNat (x : JsNumber) (k : Nat) : JsNumber :=
  { x with
      num := (roundToDouble x.num (x.den * k)).1
      den := (roundToDouble x.num (x.den * k)).2 }

/-- The test `x % 1 === 0`. -/
def JsNumber.isWhole (x : JsNumber) : Bool := x.num % x.den == 0

/-- The call `Math.round(x)` for a non-negative `x`: halves go up. -/
def JsNumber.round (x : JsNumber) : Nat := (2 * x.num + x.den) / (2 * x.den)

/-- Decimal digits of `n`, most significant first, prepended to `acc`. -/
def digitsFuel : Nat → Nat → List Char → List Char
  | 0, _, acc => acc
  | fuel + 1, n, acc =>
    if n / 10 = 0 then Char.ofNat (48 + n % 10) :: acc
    else digitsFuel fuel (n / 10) (Char.ofNat (48 + n % 10) :: acc)

/-- The call `n.toString()` for a whole `n` below `2^53`, where every digit
is printed. -/
def natToString (n : Nat) : String := String.mk (digitsFuel (n + 1) n [])

/-- The call `x.toFixed(digits)` for a non-negative `x` below `1e21`: the
multiple of `10^-digits` nearest to the exact value of `x`, the larger one of
two equally near, with `digits` decimals. -/
def JsNumber.toFixed (x : JsNumber) (digits : Nat) : String :=
  let n := (2 * x.num * 10 ^ digits + x.den) / (2 * x.den)
  if digits = 0 then natToString n
  else
    let frac := (natToString (n % 10 ^ digits)).data
    natToString (n / 10 ^ digits) ++ "." ++
      String.mk (List.replicate (digits - frac.length) '0' ++ frac)

/-- The replacement of `/\B(?=(\d{3})+(?!\d))/g` by a space in a run of digits:
a space goes before every group of three digits counted from the right, never
in front of the first digit. -/
def groupThousands : List Char → List Char
  | [] => []
  | c :: cs =>
    if cs.length != 0 && cs.length % 3 == 0 then c :: ' ' :: groupThousands cs
    else c :: groupThousands cs

/-- The function `formatWithSpaces`, `formatters.js` lines 10-13, on the whole
numbers `formatPrice` passes to it; `none` is `null` or `undefined`. -/
def formatWithSpaces (value : Option Nat) : String :=
  match value with
  | none => "N/A"
  | some n => String.mk (groupThousands (natToString n).data)

/-- The shared tail of the three suffix branches of `formatPrice`:
`formatted % 1 === 0 ? formatted.toFixed(0) : formatted.toFixed(1)`. -/
def fixedOrWhole (formatted : JsNumber) : String :=
  if formatted.isWhole then formatted.toFixed 0 else formatted.toFixed 1

/-- The function `formatPrice`, `formatters.js` lines 22-57; `none` is `null`
or `undefined`. -/
def formatPrice (value : Option JsNumber) : String :=
  match value with
  | none => "N/A"
  | some value =>
    if value.isNaN then "N/A"
    else
      let absValue := value.abs
      let sign := if value.ltZero then "-" else ""
      if absValue.geNat (10 ^ 9) then
        let formatted := absValue.divNat (10 ^ 9)
        if formatted.geNat 1000 then sign ++ formatWithSpaces (some formatted.round) ++ "B"
        else sign ++ fixedOrWhole formatted ++ "B"
      else if absValue.geNat (10 ^ 6) then
        let formatted := absValue.divNat (10 ^ 6)
        if formatted.geNat 1000 then sign ++ formatWithSpaces (some formatted.round) ++ "M"
        else sign ++ fixedOrWhole formatted ++ "M"
      else if absValue.geNat (10 ^ 3) then
        let formatted := absValue.divNat (10 ^ 3)
        if formatted.geNat 1000 then sign ++ formatWithSpaces (some formatted.round) ++ "k"
        else sign ++ fixedOrWhole formatted ++ "k"
      else sign ++ fixedOrWhole absValue

/-- The four examples of the docstring of `formatPrice`, `formatters.js` line
17: argument and documented result. -/
def formatPriceExamples : List (Nat × String) :=
  [(1500, "1 500"), (15000, "15k"), (1500000, "1 500k"), (1500000000, "1 500M")]

end Tedi

/-! ## Lemmas on entries and strings -/

namespace Tedi

theorem truthy_iff (s : String) : truthy s = true ↔ s ≠ "" := by
  simp [truthy]

theorem lookupEntry_putEntry_same (k v : String) (l : List (String × String)) :
    lookupEntry k (putEntry k v l) = some v := by
  induction l with
  | nil => simp [putEntry, lookupEntry]
  | cons e rest ih =>
    obtain ⟨k', v'⟩ := e
    by_cases h : k' = k
    · simp [putEntry, lookupEntry, h]
    · simp [putEntry, lookupEntry, h, ih]

theorem lookupEntry_putEntry_other (k k' v : String) (l : List (String × String))
    (h : k ≠ k') : lookupEntry k (putEntry k' v l) = lookupEntry k l := by
  induction l with
  | nil =>
    have h' : ¬ k' = k := fun e => h e.symm
    simp [putEntry, lookupEntry, h']
  | cons e rest ih =>
    obtain ⟨k₁, v₁⟩ := e
    by_cases h₁ : k₁ = k'
    · have h₂ : ¬ k₁ = k := fun e => h (e.symm.trans h₁)
      have h₃ : ¬ k' = k := fun e => h e.symm
      simp [putEntry, lookupEntry, h₁, h₂, h₃]
    · by_cases h₂ : k₁ = k
      · subst h₂
        simp [putEntry, lookupEntry, h]
      · simp [putEntry, lookupEntry, h₁, h₂, ih]

theorem lookupEntry_filter_removed (k : String) (l : List (String × String)) :
    lookupEntry k (l.filter (fun e => e.1 != k)) = none := by
  induction l with
  | nil => simp [lookupEntry]
  | cons e rest ih =>
    obtain ⟨k', v'⟩ := e
    by_cases h : k' = k
    · simp [List.filter, h, ih]
    · simp only [List.filter_cons]
      simp [lookupEntry, h, ih]

theorem getItem_setItem (ls : LocalStorage) (k v : String) :
    (ls.setItem k v).getItem k = some v := by
  simp [LocalStorage.getItem, LocalStorage.setItem, lookupEntry_putEntry_same]

theorem getItem_removeItem (ls : LocalStorage) (k : String) :
    (ls.removeItem k).getItem k = none := by
  simp [LocalStorage.getItem, LocalStorage.removeItem, lookupEntry_filter_removed]

theorem removeItem_removeItem (ls : LocalStorage) (k : String) :
    (ls.removeItem k).removeItem k = ls.removeItem k := by
  simp [LocalStorage.removeItem, List.filter_filter]

/-! ## Login -/

/-- C1, as stated, fails for the empty key: the remote answers `valid = true`,
`login('')` returns `true` and stores the key, yet `isAuthenticated` is `false`
afterwards, because the getter is `!!apiKey.value`. -/
theorem login_valid_empty_key_not_authenticated :
    (login (initWorld { entries := [] } "/login") ""
        (.resolved { valid := true, message := none,
                     data := some { is_admin := false, can_export := true,
                                    can_api_direct := false, email := "a@tedi.bj",
                                    id := 7 } })).2 = true ∧
    isAuthenticated
      (login (initWorld { entries := [] } "/login") ""
        (.resolved { valid := true, message := none,
                     data := some { is_admin := false, can_export := true,
                                    can_api_direct := false, email := "a@tedi.bj",
                                    id := 7 } })).1.store = false := by
  decide

/-- C1 (amended): for every non-empty key `K` and every prior world, when the
remote validate call answers `valid = true` with data `D`, `login(K)` returns
`true` and leaves `isAuthenticated` true, the in-memory credential and the
persisted `tedi_api_key` entry equal to `K`, and `keyInfo` equal to `D`. -/
theorem login_valid_authenticates (w : World) (K : String) (msg : Option String)
    (D : Option KeyInfo) (hK : K ≠ "") :
    (login w K (.resolved { valid := true, message := msg, data := D })).2 = true ∧
    isAuthenticated
      (login w K (.resolved { valid := true, message := msg, data := D })).1.store = true ∧
    (login w K (.resolved { valid := true, message := msg, data := D })).1.store.apiKey = K ∧
    (login w K (.resolved { valid := true, message := msg, data := D })).1.localStorage.getItem
      storageKey = some K ∧
    (login w K (.resolved { valid := true, message := msg, data := D })).1.store.keyInfo = D := by
  simp [login, send, setLoading, setError, isAuthenticated, truthy, hK, getItem_setItem]

/-- Witness of C1 (amended): key `tk_live_1` on a fresh anonymous session. -/
theorem login_valid_authenticates_witness :
    (login (initWorld { entries := [] } "/login") "tk_live_1"
        (.resolved { valid := true, message := none, data := none })).2 = true ∧
    isAuthenticated
      (login (initWorld { entries := [] } "/login") "tk_live_1"
        (.resolved { valid := true, message := none, data := none })).1.store = true ∧
    (login (initWorld { entries := [] } "/login") "tk_live_1"
        (.resolved { valid := true, message := none, data := none })).1.store.apiKey
      = "tk_live_1" ∧
    (login (initWorld { entries := [] } "/login") "tk_live_1"
        (.resolved { valid := true, message := none, data := none })).1.localStorage.getItem
      storageKey = some "tk_live_1" ∧
    (login (initWorld { entries := [] } "/login") "tk_live_1"
        (.resolved { valid := true, message := none, data := none })).1.store.keyInfo = none :=
  login_valid_authenticates (initWorld { entries := [] } "/login") "tk_live_1" none none
    (by decide)

end Tedi

namespace Tedi

/-- C2, as stated, fails on an already authenticated session: the remote
answers `valid = false`, `login` returns `false` and writes nothing, so the
credential of the prior session stays and `isAuthenticated` is still `true`. -/
theorem login_invalid_keeps_prior_session :
    (login
        { store := { apiKey := "tk_old", keyInfo := none, loading := false, error := none }
          localStorage := { entries := [("tedi_api_key", "tk_old")] }
          location := "/login" }
        "tk_bad"
        (.resolved { valid := false, message := some "Invalid API key", data := none })).2
      = false ∧
    isAuthenticated
      (login
        { store := { apiKey := "tk_old", keyInfo := none, loading := false, error := none }
          localStorage := { entries := [("tedi_api_key", "tk_old")] }
          location := "/login" }
        "tk_bad"
        (.resolved { valid := false, message := some "Invalid API key", data := none })).1.store
      = true := by
  decide

/-- C2 (amended): for every key `K` and every prior world, when the remote
validate call answers `valid = false`, `login(K)` returns `false` and leaves
`localStorage`, the in-memory credential and `keyInfo` as they were; hence
`isAuthenticated` afterwards is what it was before. -/
theorem login_invalid_changes_no_credential (w : World) (K : String) (msg : Option String)
    (D : Option KeyInfo) :
    (login w K (.resolved { valid := false, message := msg, data := D })).2 = false ∧
    (login w K (.resolved { valid := false, message := msg, data := D })).1.localStorage
      = w.localStorage ∧
    (login w K (.resolved { valid := false, message := msg, data := D })).1.store.apiKey
      = w.store.apiKey ∧
    (login w K (.resolved { valid := false, message := msg, data := D })).1.store.keyInfo
      = w.store.keyInfo ∧
    isAuthenticated
        (login w K (.resolved { valid := false, message := msg, data := D })).1.store
      = isAuthenticated w.store := by
  simp [login, send, setLoading, setError, isAuthenticated]

/-! ## Response interceptor -/

theorem startsWithChars_append_left (a b pat : List Char)
    (h : startsWithChars a pat = true) : startsWithChars (a ++ b) pat = true := by
  induction a generalizing pat with
  | nil =>
    cases pat with
    | nil => cases b <;> simp [startsWithChars]
    | cons p ps => simp [startsWithChars] at h
  | cons c cs ih =>
    cases pat with
    | nil => simp [startsWithChars]
    | cons p ps =>
      simp only [startsWithChars, Bool.and_eq_true] at h
      simp only [List.cons_append, startsWithChars, Bool.and_eq_true]
      exact ⟨h.1, ih ps h.2⟩

theorem includesChars_nil_pattern (a : List Char) : includesChars a [] = true := by
  cases a <;> simp [includesChars, startsWithChars]

theorem includesChars_append_left (a b pat : List Char) (h : includesChars a pat = true) :
    includesChars (a ++ b) pat = true := by
  induction a with
  | nil =>
    cases pat with
    | nil => exact includesChars_nil_pattern _
    | cons p ps => simp [includesChars, startsWithChars] at h
  | cons c cs ih =>
    simp only [includesChars, Bool.or_eq_true] at h
    simp only [List.cons_append, includesChars, Bool.or_eq_true]
    rcases h with h | h
    · exact Or.inl (startsWithChars_append_left (c :: cs) b pat h)
    · exact Or.inr (ih h)

theorem includes_append_left (s t pat : String) (h : includes s pat = true) :
    includes (s ++ t) pat = true := by
  unfold includes at *
  rw [String.data_append]
  exact includesChars_append_left _ _ _ h

/-- Every URL built by an operation of the `admin` group contains `/admin/`. -/
theorem admin_url_includes_admin (call : ApiCall) (h : call.isAdminOp = true) :
    ∃ u, call.request.url = some u ∧ includes u "/admin/" = true := by
  cases call <;> simp [ApiCall.isAdminOp] at h
  · exact ⟨_, rfl, by decide⟩
  · exact ⟨_, rfl, by decide⟩
  · exact ⟨_, rfl, includes_append_left _ _ _ (by decide)⟩
  · exact ⟨_, rfl, includes_append_left _ _ _ (by decide)⟩

theorem requestInterceptor_url (ls : LocalStorage) (c : RequestConfig) :
    (requestInterceptor ls c).url = c.url := by
  unfold requestInterceptor
  split
  · split <;> rfl
  · rfl

theorem isAdminEndpoint_outgoing_admin (ls : LocalStorage) (call : ApiCall)
    (r : Option ErrorResponse) (h : call.isAdminOp = true) :
    isAdminEndpoint { config := some (outgoing ls call), response := r } = some true := by
  obtain ⟨u, hu, hinc⟩ := admin_url_includes_admin call h
  simp [isAdminEndpoint, outgoing, requestInterceptor_url, hu, hinc]

/-- C3, as stated, fails on its in-memory part: after a 401 on
`GET /agriculture/communes` the interceptor has removed the persisted entry and
set the location to `/login`, but the store still holds the credential and the
key info, because the handler never touches the store. -/
theorem unauthorized_keeps_store_in_memory :
    isUnauthorized
      { config := some (outgoing { entries := [("tedi_api_key", "tk_live_1")] }
                          .agricultureGetCommunes)
        response := some { status := 401, message := none } } = true ∧
    isAdminEndpoint
      { config := some (outgoing { entries := [("tedi_api_key", "tk_live_1")] }
                          .agricultureGetCommunes)
        response := some { status := 401, message := none } } = some false ∧
    (responseRejected
      { store := { apiKey := "tk_live_1"
                   keyInfo := some { is_admin := false, can_export := true,
                                     can_api_direct := false, email := "a@tedi.bj", id := 7 }
                   loading := false, error := none }
        localStorage := { entries := [("tedi_api_key", "tk_live_1")] }
        location := "/agriculture" }
      { config := some (outgoing { entries := [("tedi_api_key", "tk_live_1")] }
                          .agricultureGetCommunes)
        response := some { status := 401, message := none } }).1.store
      = { apiKey := "tk_live_1"
          keyInfo := some { is_admin := false, can_export := true,
                            can_api_direct := false, email := "a@tedi.bj", id := 7 }
          loading := false, error := none } := by
  decide

/-- C3 (amended): for every failed response with status 401 whose request path
is not admin-scoped, the interceptor removes the persisted credential, sets the
location to `/login` and rejects with the original error; it leaves the store's
refs as they were, and a store created afterwards from `localStorage` (as the
page load at `/login` does) is anonymous: empty credential, `keyInfo` null. -/
theorem unauthorized_clears_persisted_credential (w : World) (e : AxiosError)
    (resp : ErrorResponse) (hresp : e.response = some resp) (h401 : resp.status = 401)
    (hpath : isAdminEndpoint e ≠ some true) :
    (responseRejected w e).1.localStorage.getItem storageKey = none ∧
    (responseRejected w e).1.location = "/login" ∧
    (responseRejected w e).2 = e ∧
    (responseRejected w e).1.store = w.store ∧
    (initStore (responseRejected w e).1.localStorage).apiKey = "" ∧
    (initStore (responseRejected w e).1.localStorage).keyInfo = none ∧
    isAuthenticated (initStore (responseRejected w e).1.localStorage) = false := by
  have hu : isUnauthorized e = true := by simp [isUnauthorized, hresp, h401]
  have ha : (isAdminEndpoint e).getD false = false := by
    cases h : isAdminEndpoint e with
    | none => rfl
    | some b =>
      cases b with
      | false => rfl
      | true => exact absurd h hpath
  simp [responseRejected, hu, ha, getItem_removeItem, initStore, orString, isAuthenticated,
    truthy]

/-- Witness of C3 (amended): a 401 on `GET /agriculture/communes`. -/
theorem unauthorized_clears_persisted_credential_witness :
    (responseRejected
      { store := { apiKey := "tk_live_1", keyInfo := none, loading := false, error := none }
        localStorage := { entries := [("tedi_api_key", "tk_live_1")] }
        location := "/agriculture" }
      { config := some (outgoing { entries := [("tedi_api_key", "tk_live_1")] }
                          .agricultureGetCommunes)
        response := some { status := 401, message := none } }).1.location = "/login" :=
  (unauthorized_clears_persisted_credential
    { store := { apiKey := "tk_live_1", keyInfo := none, loading := false, error := none }
      localStorage := { entries := [("tedi_api_key", "tk_live_1")] }
      location := "/agriculture" }
    { config := some (outgoing { entries := [("tedi_api_key", "tk_live_1")] }
                        .agricultureGetCommunes)
      response := some { status := 401, message := none } }
    { status := 401, message := none } rfl rfl (by decide)).2.1

/-- C4: for every failed response with status 401 on a request issued by one of
the four admin operations, whatever the secret, key id and body, the response
interceptor returns the world unchanged (store, `localStorage`, location) and
rejects with the same error; so does the whole call through the client. -/
theorem admin_unauthorized_changes_nothing {α : Type} (w : World) (call : ApiCall)
    (msg : Option String) (hop : call.isAdminOp = true) :
    responseRejected w
        { config := some (outgoing w.localStorage call)
          response := some { status := 401, message := msg } }
      = (w, { config := some (outgoing w.localStorage call)
              response := some { status := 401, message := msg } }) ∧
    (send w call (.rejected (some { status := 401, message := msg })) :
        World × Except AxiosError α)
      = (w, .error { config := some (outgoing w.localStorage call)
                     response := some { status := 401, message := msg } }) := by
  have ha := isAdminEndpoint_outgoing_admin w.localStorage call
    (some { status := 401, message := msg }) hop
  simp [send, responseRejected, ha]

/-- Witness of C4: `admin.updateKey('s3cret', '42', body)` answered 401 while a
session credential is stored. -/
theorem admin_unauthorized_changes_nothing_witness :
    (send
      { store := { apiKey := "tk_live_1", keyInfo := none, loading := false, error := none }
        localStorage := { entries := [("tedi_api_key", "tk_live_1")] }
        location := "/admin" }
      (.adminUpdateKey "s3cret" "42" "body")
      (.rejected (some { status := 401, message := none })) :
        World × Except AxiosError Unit).1
      = { store := { apiKey := "tk_live_1", keyInfo := none, loading := false, error := none }
          localStorage := { entries := [("tedi_api_key", "tk_live_1")] }
          location := "/admin" } :=
  congrArg Prod.fst
    (admin_unauthorized_changes_nothing
      { store := { apiKey := "tk_live_1", keyInfo := none, loading := false, error := none }
        localStorage := { entries := [("tedi_api_key", "tk_live_1")] }
        location := "/admin" }
      (.adminUpdateKey "s3cret" "42" "body") none rfl).2

end Tedi

/-! ## Request interceptor -/

namespace Tedi

theorem hasHeader_request_apiKey (call : ApiCall) :
    hasHeader call.request "X-API-KEY" = false := by
  cases call <;>
    simp [ApiCall.request, mkRequest, hasHeader, defaultHeaders, putEntry, lookupEntry]

theorem hasHeader_request_adminSecret (call : ApiCall) :
    hasHeader call.request "X-Admin-Secret" = call.isAdminOp := by
  cases call <;>
    simp [ApiCall.request, mkRequest, hasHeader, defaultHeaders, putEntry, lookupEntry,
      ApiCall.isAdminOp]

theorem hasHeader_requestInterceptor_apiKey (ls : LocalStorage) (c : RequestConfig) :
    hasHeader (requestInterceptor ls c) "X-API-KEY"
      = (holdsCredential ls || hasHeader c "X-API-KEY") := by
  unfold requestInterceptor holdsCredential
  cases h : ls.getItem storageKey with
  | none => simp
  | some k =>
    by_cases hk : truthy k = true
    · simp [hk, hasHeader, lookupEntry_putEntry_same]
    · simp [hk]

theorem hasHeader_requestInterceptor_other (ls : LocalStorage) (c : RequestConfig)
    (name : String) (h : name ≠ "X-API-KEY") :
    hasHeader (requestInterceptor ls c) name = hasHeader c name := by
  unfold requestInterceptor
  cases hg : ls.getItem storageKey with
  | none => simp
  | some k =>
    by_cases hk : truthy k = true
    · simp [hk, hasHeader, lookupEntry_putEntry_other _ _ _ _ h]
    · simp [hk]

/-- C5, as stated, fails for an admin operation issued while a credential is
stored: the request of `admin.getKeys('s3cret')` leaves the client with both
`X-API-KEY` and `X-Admin-Secret`. -/
theorem admin_request_carries_both_headers :
    hasHeader (outgoing { entries := [("tedi_api_key", "tk_live_1")] } (.adminGetKeys "s3cret"))
      "X-API-KEY" = true ∧
    hasHeader (outgoing { entries := [("tedi_api_key", "tk_live_1")] } (.adminGetKeys "s3cret"))
      "X-Admin-Secret" = true := by
  decide

/-- C5 (amended): for every operation of the API client and every content of
`localStorage`, the outgoing request carries `X-Admin-Secret` exactly when the
operation is an admin operation, and carries `X-API-KEY` exactly when
`localStorage` holds a non-empty credential; so it carries both exactly when an
admin operation is issued while a credential is stored. -/
theorem outgoing_headers (ls : LocalStorage) (call : ApiCall) :
    hasHeader (outgoing ls call) "X-Admin-Secret" = call.isAdminOp ∧
    hasHeader (outgoing ls call) "X-API-KEY" = holdsCredential ls ∧
    ((hasHeader (outgoing ls call) "X-API-KEY" = true ∧
        hasHeader (outgoing ls call) "X-Admin-Secret" = true) ↔
      (call.isAdminOp = true ∧ holdsCredential ls = true)) := by
  have h1 : hasHeader (outgoing ls call) "X-Admin-Secret" = call.isAdminOp := by
    unfold outgoing
    rw [hasHeader_requestInterceptor_other ls _ _ (by decide), hasHeader_request_adminSecret]
  have h2 : hasHeader (outgoing ls call) "X-API-KEY" = holdsCredential ls := by
    unfold outgoing
    rw [hasHeader_requestInterceptor_apiKey, hasHeader_request_apiKey, Bool.or_false]
  refine ⟨h1, h2, ?_⟩
  rw [h1, h2]
  exact And.comm

end Tedi

/-! ## Reachable states of the store -/

namespace Tedi

theorem responseRejected_store (w : World) (e : AxiosError) :
    (responseRejected w e).1.store = w.store := by
  unfold responseRejected
  split <;> rfl

theorem settle_store {α : Type} (w : World) (config : RequestConfig) (reply : Reply α) :
    (settle w config reply).1.store = w.store := by
  cases reply <;> simp [settle, responseRejected_store]

theorem send_eq_settle {α : Type} (w : World) (call : ApiCall) (reply : Reply α) :
    send w call reply = settle w (outgoing w.localStorage call) reply := by
  cases reply <;> rfl

/-- The atomic `login` is its three pieces run one after the other. -/
theorem login_eq_pieces (w : World) (key : String) (reply : Reply ValidateData) :
    login w key reply
      = loginResume
          (settle (loginStart w) (outgoing (loginStart w).localStorage (.authValidateKey key))
            reply).1
          key
          (settle (loginStart w) (outgoing (loginStart w).localStorage (.authValidateKey key))
            reply).2 := by
  cases reply <;> rfl

/-- The atomic `checkAuth` is its pieces run one after the other. -/
theorem checkAuth_eq_pieces (w : World) (reply : Reply ValidateData) :
    checkAuth w reply
      = if !truthy w.store.apiKey then (w, false)
        else
          checkAuthResume
            (settle w (outgoing w.localStorage (.authValidateKey w.store.apiKey)) reply).1
            (settle w (outgoing w.localStorage (.authValidateKey w.store.apiKey)) reply).2 := by
  unfold checkAuth
  split
  · rfl
  · cases reply <;> rfl

/-- The atomic `register` is its three pieces run one after the other. -/
theorem register_eq_pieces (w : World) (userData : String) (reply : Reply RegisterData) :
    register w userData reply
      = registerResume
          (settle (registerStart w)
            (outgoing (registerStart w).localStorage (.authRegister userData)) reply).1
          (settle (registerStart w)
            (outgoing (registerStart w).localStorage (.authRegister userData)) reply).2 := by
  cases reply <;> rfl

theorem loginResume_keyInfo_authenticated (w : World) (key : String)
    (outcome : Except AxiosError ValidateData) (hk : truthy key = true)
    (h : w.store.keyInfo ≠ none → truthy w.store.apiKey = true) :
    (loginResume w key outcome).1.store.keyInfo ≠ none →
      truthy (loginResume w key outcome).1.store.apiKey = true := by
  cases outcome with
  | error err => simpa [loginResume, setLoading, setError] using h
  | ok d =>
    by_cases hv : d.valid = true
    · simp [loginResume, setLoading, hv, hk]
    · simpa [loginResume, setLoading, setError, hv] using h

theorem checkAuthResume_keyInfo_authenticated (w : World)
    (outcome : Except AxiosError ValidateData)
    (hfresh : ∀ d, outcome = .ok d → d.valid = true → d.data ≠ none →
      truthy w.store.apiKey = true) :
    (checkAuthResume w outcome).1.store.keyInfo ≠ none →
      truthy (checkAuthResume w outcome).1.store.apiKey = true := by
  cases outcome with
  | error err => simp [checkAuthResume, logout]
  | ok d =>
    by_cases hv : d.valid = true
    · by_cases hd : d.data = none
      · simp [checkAuthResume, hv, hd]
      · have hk := hfresh d rfl hv hd
        simp [checkAuthResume, hv, hk]
    · simp [checkAuthResume, hv, logout]

theorem registerResume_keyInfo_authenticated (w : World)
    (outcome : Except AxiosError RegisterData)
    (h : w.store.keyInfo ≠ none → truthy w.store.apiKey = true) :
    (registerResume w outcome).1.store.keyInfo ≠ none →
      truthy (registerResume w outcome).1.store.apiKey = true := by
  cases outcome with
  | error err => simpa [registerResume, setLoading, setError] using h
  | ok d =>
    cases hkey : d.api_key with
    | none => simpa [registerResume, setLoading, hkey] using h
    | some k =>
      by_cases hk : truthy k = true
      · simp [registerResume, setLoading, hkey, hk]
      · simpa [registerResume, setLoading, hkey, hk] using h

theorem step_keyInfo_authenticated (s : Runtime) (e : Event)
    (he : e.isEmptyLogin = false) (hst : s.resumesStale e = false)
    (h1 : s.world.store.keyInfo ≠ none → truthy s.world.store.apiKey = true)
    (h3 : ∀ t ∈ s.tasks, t.keyTruthy = true) :
    ((s.step e).world.store.keyInfo ≠ none →
        truthy (s.step e).world.store.apiKey = true) ∧
    ∀ t ∈ (s.step e).tasks, t.keyTruthy = true := by
  cases e with
  | login key =>
    have hk : truthy key = true := by simpa [Event.isEmptyLogin] using he
    refine ⟨by simpa [Runtime.step, loginStart, setLoading, setError] using h1, ?_⟩
    intro t ht
    simp only [Runtime.step, List.mem_append, List.mem_singleton] at ht
    rcases ht with ht | rfl
    · exact h3 t ht
    · exact hk
  | logout => exact ⟨by simp [Runtime.step, logout], fun t ht => h3 t ht⟩
  | checkAuth =>
    by_cases hk : truthy s.world.store.apiKey = true
    · refine ⟨by simp [Runtime.step, hk], ?_⟩
      intro t ht
      simp only [Runtime.step, hk, Bool.not_true, Bool.false_eq_true, if_false,
        List.mem_append, List.mem_singleton] at ht
      rcases ht with ht | rfl
      · exact h3 t ht
      · rfl
    · have hk' : truthy s.world.store.apiKey = false := by simpa using hk
      have hstep : s.step .checkAuth = s := by simp [Runtime.step, hk']
      rw [hstep]
      exact ⟨h1, h3⟩
  | register userData =>
    refine ⟨by simpa [Runtime.step, registerStart, setLoading, setError] using h1, ?_⟩
    intro t ht
    simp only [Runtime.step, List.mem_append, List.mem_singleton] at ht
    rcases ht with ht | rfl
    · exact h3 t ht
    · rfl
  | validateReply i reply =>
    cases hget : s.tasks[i]? with
    | none => simpa [Runtime.step, hget] using And.intro h1 h3
    | some task =>
      have hmem := List.getElem?_mem hget
      cases task with
      | loginAwait key config =>
        refine ⟨by simpa [Runtime.step, hget, settle_store] using h1, ?_⟩
        intro t ht
        simp only [Runtime.step, hget] at ht
        rcases List.mem_or_eq_of_mem_set ht with ht | rfl
        · exact h3 t ht
        · exact h3 (.loginAwait key config) hmem
      | checkAuthAwait config =>
        refine ⟨by simpa [Runtime.step, hget, settle_store] using h1, ?_⟩
        intro t ht
        simp only [Runtime.step, hget] at ht
        rcases List.mem_or_eq_of_mem_set ht with ht | rfl
        · exact h3 t ht
        · rfl
      | loginSettled key outcome => simpa [Runtime.step, hget] using And.intro h1 h3
      | checkAuthSettled outcome => simpa [Runtime.step, hget] using And.intro h1 h3
      | registerAwait config => simpa [Runtime.step, hget] using And.intro h1 h3
      | registerSettled outcome => simpa [Runtime.step, hget] using And.intro h1 h3
  | registerReply i reply =>
    cases hget : s.tasks[i]? with
    | none => simpa [Runtime.step, hget] using And.intro h1 h3
    | some task =>
      cases task with
      | registerAwait config =>
        refine ⟨by simpa [Runtime.step, hget, settle_store] using h1, ?_⟩
        intro t ht
        simp only [Runtime.step, hget] at ht
        rcases List.mem_or_eq_of_mem_set ht with ht | rfl
        · exact h3 t ht
        · rfl
      | loginAwait key config => simpa [Runtime.step, hget] using And.intro h1 h3
      | checkAuthAwait config => simpa [Runtime.step, hget] using And.intro h1 h3
      | loginSettled key outcome => simpa [Runtime.step, hget] using And.intro h1 h3
      | checkAuthSettled outcome => simpa [Runtime.step, hget] using And.intro h1 h3
      | registerSettled outcome => simpa [Runtime.step, hget] using And.intro h1 h3
  | resume i =>
    cases hget : s.tasks[i]? with
    | none => simpa [Runtime.step, hget] using And.intro h1 h3
    | some task =>
      have hmem := List.getElem?_mem hget
      have hrest : ∀ t ∈ s.tasks.eraseIdx i, t.keyTruthy = true :=
        fun t ht => h3 t (List.mem_of_mem_eraseIdx ht)
      cases task with
      | loginSettled key outcome =>
        have hk : truthy key = true := h3 _ hmem
        simp only [Runtime.step, hget]
        exact ⟨loginResume_keyInfo_authenticated s.world key outcome hk h1, hrest⟩
      | checkAuthSettled outcome =>
        simp only [Runtime.step, hget]
        refine ⟨checkAuthResume_keyInfo_authenticated s.world outcome ?_, hrest⟩
        intro d hd hv hdata
        subst hd
        have hsome : d.data.isSome = true := by
          cases hdd : d.data with
          | none => exact absurd hdd hdata
          | some k => rfl
        simpa [Runtime.resumesStale, hget, hv, hsome] using hst
      | registerSettled outcome =>
        simp only [Runtime.step, hget]
        exact ⟨registerResume_keyInfo_authenticated s.world outcome h1, hrest⟩
      | loginAwait key config => simpa [Runtime.step, hget] using And.intro h1 h3
      | checkAuthAwait config => simpa [Runtime.step, hget] using And.intro h1 h3
      | registerAwait config => simpa [Runtime.step, hget] using And.intro h1 h3

theorem run_keyInfo_authenticated (events : List Event) (s : Runtime)
    (he : ∀ e ∈ events, e.isEmptyLogin = false) (hst : s.freshResumes events = true)
    (h1 : s.world.store.keyInfo ≠ none → truthy s.world.store.apiKey = true)
    (h3 : ∀ t ∈ s.tasks, t.keyTruthy = true) :
    (s.run events).world.store.keyInfo ≠ none →
      truthy (s.run events).world.store.apiKey = true := by
  induction events generalizing s with
  | nil => simpa [Runtime.run] using h1
  | cons e rest ih =>
    simp only [Runtime.freshResumes, Bool.and_eq_true, Bool.not_eq_true'] at hst
    have hstep := step_keyInfo_authenticated s e (he e (List.mem_cons_self e rest)) hst.1
      h1 h3
    have h := ih (s.step e) (fun b hb => he b (List.mem_cons_of_mem e hb)) hst.2
      hstep.1 hstep.2
    simpa [Runtime.run] using h

theorem loginResume_authenticated_keyInfo (w : World) (key : String)
    (outcome : Except AxiosError ValidateData)
    (hd : (Task.loginSettled key outcome).dataCarried = true)
    (h : truthy w.store.apiKey = true → w.store.keyInfo ≠ none) :
    truthy (loginResume w key outcome).1.store.apiKey = true →
      (loginResume w key outcome).1.store.keyInfo ≠ none := by
  cases outcome with
  | error err => simpa [loginResume, setLoading, setError] using h
  | ok d =>
    by_cases hv : d.valid = true
    · have hdata : d.data ≠ none := by
        intro hn
        simp [Task.dataCarried, hv, hn] at hd
      simp [loginResume, setLoading, hv, hdata]
    · simpa [loginResume, setLoading, setError, hv] using h

theorem checkAuthResume_authenticated_keyInfo (w : World)
    (outcome : Except AxiosError ValidateData)
    (hd : (Task.checkAuthSettled outcome).dataCarried = true) :
    truthy (checkAuthResume w outcome).1.store.apiKey = true →
      (checkAuthResume w outcome).1.store.keyInfo ≠ none := by
  cases outcome with
  | error err => simp [checkAuthResume, logout, truthy]
  | ok d =>
    by_cases hv : d.valid = true
    · have hdata : d.data ≠ none := by
        intro hn
        simp [Task.dataCarried, hv, hn] at hd
      simp [checkAuthResume, hv, hdata]
    · simp [checkAuthResume, hv, logout, truthy]

theorem registerResume_authenticated_keyInfo (w : World)
    (outcome : Except AxiosError RegisterData)
    (hd : (Task.registerSettled outcome).dataCarried = true)
    (h : truthy w.store.apiKey = true → w.store.keyInfo ≠ none) :
    truthy (registerResume w outcome).1.store.apiKey = true →
      (registerResume w outcome).1.store.keyInfo ≠ none := by
  cases outcome with
  | error err => simpa [registerResume, setLoading, setError] using h
  | ok d =>
    cases hkey : d.api_key with
    | none => simpa [registerResume, setLoading, hkey] using h
    | some k =>
      by_cases hk : truthy k = true
      · have hdata : d.data ≠ none := by
          intro hn
          simp [Task.dataCarried, RegisterData.hasKey, hkey, hk, hn] at hd
        simp [registerResume, setLoading, hkey, hk, hdata]
      · simpa [registerResume, setLoading, hkey, hk] using h

theorem settle_dataCarried_validate (w : World) (config : RequestConfig) (i : Nat)
    (reply : Reply ValidateData) (h : (Event.validateReply i reply).carriesData = true) :
    ∀ d, (settle w config reply).2 = .ok d → (!d.valid || d.data.isSome) = true := by
  intro d hd
  cases reply with
  | resolved d' =>
    simp only [settle, Except.ok.injEq] at hd
    subst hd
    exact h
  | rejected r => simp [settle] at hd

theorem settle_dataCarried_register (w : World) (config : RequestConfig) (i : Nat)
    (reply : Reply RegisterData) (h : (Event.registerReply i reply).carriesData = true) :
    ∀ d, (settle w config reply).2 = .ok d → (!d.hasKey || d.data.isSome) = true := by
  intro d hd
  cases reply with
  | resolved d' =>
    simp only [settle, Except.ok.injEq] at hd
    subst hd
    exact h
  | rejected r => simp [settle] at hd

theorem step_authenticated_keyInfo (s : Runtime) (e : Event) (he : e.carriesData = true)
    (h1 : truthy s.world.store.apiKey = true → s.world.store.keyInfo ≠ none)
    (h3 : ∀ t ∈ s.tasks, t.dataCarried = true) :
    (truthy (s.step e).world.store.apiKey = true →
        (s.step e).world.store.keyInfo ≠ none) ∧
    ∀ t ∈ (s.step e).tasks, t.dataCarried = true := by
  cases e with
  | login key =>
    refine ⟨by simpa [Runtime.step, loginStart, setLoading, setError] using h1, ?_⟩
    intro t ht
    simp only [Runtime.step, List.mem_append, List.mem_singleton] at ht
    rcases ht with ht | rfl
    · exact h3 t ht
    · rfl
  | logout => exact ⟨by simp [Runtime.step, logout, truthy], fun t ht => h3 t ht⟩
  | checkAuth =>
    by_cases hk : truthy s.world.store.apiKey = true
    · refine ⟨by simpa [Runtime.step, hk] using h1, ?_⟩
      intro t ht
      simp only [Runtime.step, hk, Bool.not_true, Bool.false_eq_true, if_false,
        List.mem_append, List.mem_singleton] at ht
      rcases ht with ht | rfl
      · exact h3 t ht
      · rfl
    · have hk' : truthy s.world.store.apiKey = false := by simpa using hk
      have hstep : s.step .checkAuth = s := by simp [Runtime.step, hk']
      rw [hstep]
      exact ⟨h1, h3⟩
  | register userData =>
    refine ⟨by simpa [Runtime.step, registerStart, setLoading, setError] using h1, ?_⟩
    intro t ht
    simp only [Runtime.step, List.mem_append, List.mem_singleton] at ht
    rcases ht with ht | rfl
    · exact h3 t ht
    · rfl
  | validateReply i reply =>
    cases hget : s.tasks[i]? with
    | none => simpa [Runtime.step, hget] using And.intro h1 h3
    | some task =>
      cases task with
      | loginAwait key config =>
        refine ⟨by simpa [Runtime.step, hget, settle_store] using h1, ?_⟩
        intro t ht
        simp only [Runtime.step, hget] at ht
        rcases List.mem_or_eq_of_mem_set ht with ht | rfl
        · exact h3 t ht
        · have hs := settle_dataCarried_validate s.world config i reply he
          cases hout : (settle s.world config reply).2 with
          | error err => rfl
          | ok d => exact hs d hout
      | checkAuthAwait config =>
        refine ⟨by simpa [Runtime.step, hget, settle_store] using h1, ?_⟩
        intro t ht
        simp only [Runtime.step, hget] at ht
        rcases List.mem_or_eq_of_mem_set ht with ht | rfl
        · exact h3 t ht
        · have hs := settle_dataCarried_validate s.world config i reply he
          cases hout : (settle s.world config reply).2 with
          | error err => rfl
          | ok d => exact hs d hout
      | loginSettled key outcome => simpa [Runtime.step, hget] using And.intro h1 h3
      | checkAuthSettled outcome => simpa [Runtime.step, hget] using And.intro h1 h3
      | registerAwait config => simpa [Runtime.step, hget] using And.intro h1 h3
      | registerSettled outcome => simpa [Runtime.step, hget] using And.intro h1 h3
  | registerReply i reply =>
    cases hget : s.tasks[i]? with
    | none => simpa [Runtime.step, hget] using And.intro h1 h3
    | some task =>
      cases task with
      | registerAwait config =>
        refine ⟨by simpa [Runtime.step, hget, settle_store] using h1, ?_⟩
        intro t ht
        simp only [Runtime.step, hget] at ht
        rcases List.mem_or_eq_of_mem_set ht with ht | rfl
        · exact h3 t ht
        · have hs := settle_dataCarried_register s.world config i reply he
          cases hout : (settle s.world config reply).2 with
          | error err => rfl
          | ok d => exact hs d hout
      | loginAwait key config => simpa [Runtime.step, hget] using And.intro h1 h3
      | checkAuthAwait config => simpa [Runtime.step, hget] using And.intro h1 h3
      | loginSettled key outcome => simpa [Runtime.step, hget] using And.intro h1 h3
      | checkAuthSettled outcome => simpa [Runtime.step, hget] using And.intro h1 h3
      | registerSettled outcome => simpa [Runtime.step, hget] using And.intro h1 h3
  | resume i =>
    cases hget : s.tasks[i]? with
    | none => simpa [Runtime.step, hget] using And.intro h1 h3
    | some task =>
      have hmem := List.getElem?_mem hget
      have hrest : ∀ t ∈ s.tasks.eraseIdx i, t.dataCarried = true :=
        fun t ht => h3 t (List.mem_of_mem_eraseIdx ht)
      cases task with
      | loginSettled key outcome =>
        simp only [Runtime.step, hget]
        exact ⟨loginResume_authenticated_keyInfo s.world key outcome (h3 _ hmem) h1, hrest⟩
      | checkAuthSettled outcome =>
        simp only [Runtime.step, hget]
        exact ⟨checkAuthResume_authenticated_keyInfo s.world outcome (h3 _ hmem), hrest⟩
      | registerSettled outcome =>
        simp only [Runtime.step, hget]
        exact ⟨registerResume_authenticated_keyInfo s.world outcome (h3 _ hmem) h1, hrest⟩
      | loginAwait key config => simpa [Runtime.step, hget] using And.intro h1 h3
      | checkAuthAwait config => simpa [Runtime.step, hget] using And.intro h1 h3
      | registerAwait config => simpa [Runtime.step, hget] using And.intro h1 h3

theorem run_authenticated_keyInfo (events : List Event) (s : Runtime)
    (he : ∀ e ∈ events, e.carriesData = true)
    (h1 : truthy s.world.store.apiKey = true → s.world.store.keyInfo ≠ none)
    (h3 : ∀ t ∈ s.tasks, t.dataCarried = true) :
    truthy (s.run events).world.store.apiKey = true →
      (s.run events).world.store.keyInfo ≠ none := by
  induction events generalizing s with
  | nil => simpa [Runtime.run] using h1
  | cons e rest ih =>
    have hstep := step_authenticated_keyInfo s e (he e (List.mem_cons_self e rest)) h1 h3
    have h := ih (s.step e) (fun b hb => he b (List.mem_cons_of_mem e hb)) hstep.1 hstep.2
    simpa [Runtime.run] using h

theorem initStore_not_authenticated (ls : LocalStorage) (h : holdsCredential ls = false) :
    truthy (initStore ls).apiKey = false := by
  unfold holdsCredential at h
  unfold initStore orString
  cases hg : ls.getItem storageKey with
  | none => simp [truthy]
  | some k =>
    rw [hg] at h
    simp only at h
    have hk : k = "" := by simpa [truthy] using h
    simp [hk, truthy]

/-- A `login` that runs alone is the atomic `login`. -/
theorem run_sequentialLogin (w : World) (key : String) (reply : Reply ValidateData) :
    (Runtime.run { world := w, tasks := [] } (sequentialLogin key reply))
      = { world := (login w key reply).1, tasks := [] } := by
  rw [login_eq_pieces]
  simp [Runtime.run, sequentialLogin, Runtime.step, loginStart, setLoading, setError]

/-- A `checkAuth` that runs alone is the atomic `checkAuth`. -/
theorem run_sequentialCheckAuth (w : World) (reply : Reply ValidateData) :
    (Runtime.run { world := w, tasks := [] } (sequentialCheckAuth reply))
      = { world := (checkAuth w reply).1, tasks := [] } := by
  rw [checkAuth_eq_pieces]
  by_cases hk : truthy w.store.apiKey = true
  · simp [Runtime.run, sequentialCheckAuth, Runtime.step, hk]
  · have hk' : truthy w.store.apiKey = false := by simpa using hk
    simp [Runtime.run, sequentialCheckAuth, Runtime.step, hk']

/-- A `register` that runs alone is the atomic `register`. -/
theorem run_sequentialRegister (w : World) (userData : String) (reply : Reply RegisterData) :
    (Runtime.run { world := w, tasks := [] } (sequentialRegister userData reply))
      = { world := (register w userData reply).1, tasks := [] } := by
  rw [register_eq_pieces]
  simp [Runtime.run, sequentialRegister, Runtime.step, registerStart, setLoading, setError]

/-- C6, as stated, fails in three ways.  A store created while `localStorage`
holds a credential is authenticated with `keyInfo` null before any action.
After `login('')` answered `valid = true` with data, `keyInfo` is non-null
while `isAuthenticated` is false.  And when `logout()` runs while a
`checkAuth()` is suspended at its `await`, the continuation of `checkAuth`,
answered `valid = true`, writes `keyInfo` into the logged-out store. -/
theorem keyInfo_iff_authenticated_fails :
    (isAuthenticated
        ((initRuntime { entries := [("tedi_api_key", "tk_live_1")] } "/").run []).world.store
        = true ∧
      ((initRuntime { entries := [("tedi_api_key", "tk_live_1")] } "/").run []).world.store.keyInfo
        = none) ∧
    (isAuthenticated
        ((initRuntime { entries := [] } "/login").run
          [.login "",
           .validateReply 0
            (.resolved { valid := true, message := none,
                         data := some { is_admin := false, can_export := true,
                                        can_api_direct := false, email := "a@tedi.bj",
                                        id := 7 } }),
           .resume 0]).world.store = false ∧
      ((initRuntime { entries := [] } "/login").run
          [.login "",
           .validateReply 0
            (.resolved { valid := true, message := none,
                         data := some { is_admin := false, can_export := true,
                                        can_api_direct := false, email := "a@tedi.bj",
                                        id := 7 } }),
           .resume 0]).world.store.keyInfo ≠ none) ∧
    (isAuthenticated
        ((initRuntime { entries := [("tedi_api_key", "tk_live_1")] } "/dashboard").run
          [.checkAuth,
           .logout,
           .validateReply 0
            (.resolved { valid := true, message := none,
                         data := some { is_admin := false, can_export := true,
                                        can_api_direct := false, email := "a@tedi.bj",
                                        id := 7 } }),
           .resume 0]).world.store = false ∧
      ((initRuntime { entries := [("tedi_api_key", "tk_live_1")] } "/dashboard").run
          [.checkAuth,
           .logout,
           .validateReply 0
            (.resolved { valid := true, message := none,
                         data := some { is_admin := false, can_export := true,
                                        can_api_direct := false, email := "a@tedi.bj",
                                        id := 7 } }),
           .resume 0]).world.store.keyInfo ≠ none) := by
  decide

/-- C6 (amended): in every state of the store reachable from its initial state
by any interleaving of `login`, `logout`, `checkAuth` and `register` calls, of
the replies to them and of their continuations, provided `login` is never
called with the empty key and no `checkAuth` answered `valid = true` with key
data resumes while the in-memory credential is empty, a non-null `keyInfo`
implies that the session is authenticated.  When moreover `localStorage` held no credential at
start-up and every positive reply carried key data, `keyInfo` is non-null if
and only if the session is authenticated. -/
theorem keyInfo_authenticated_reachable (ls : LocalStorage) (loc : String)
    (events : List Event) (hkeys : ∀ e ∈ events, e.isEmptyLogin = false)
    (hfresh : (initRuntime ls loc).freshResumes events = true) :
    (((initRuntime ls loc).run events).world.store.keyInfo ≠ none →
      isAuthenticated ((initRuntime ls loc).run events).world.store = true) ∧
    (holdsCredential ls = false → (∀ e ∈ events, e.carriesData = true) →
      (isAuthenticated ((initRuntime ls loc).run events).world.store = true ↔
        ((initRuntime ls loc).run events).world.store.keyInfo ≠ none)) := by
  have h1 := run_keyInfo_authenticated events (initRuntime ls loc) hkeys hfresh
    (by simp [initRuntime, initWorld, initStore]) (by simp [initRuntime])
  refine ⟨h1, fun hls hdata => ⟨?_, h1⟩⟩
  exact run_authenticated_keyInfo events (initRuntime ls loc) hdata
    (by simp [initRuntime, initWorld, initStore_not_authenticated ls hls])
    (by simp [initRuntime])

/-- Witness of C6 (amended): a `login` and a `register` overlap, a `checkAuth`
is rejected with 401 while the registration is still suspended, the
registration then resumes and a second `checkAuth` is answered `valid = true`;
the session ends authenticated. -/
theorem keyInfo_authenticated_reachable_witness :
    isAuthenticated
      ((initRuntime { entries := [] } "/login").run
        [.login "tk_live_1",
         .register "body",
         .validateReply 0
           (.resolved { valid := true, message := none,
                        data := some { is_admin := false, can_export := true,
                                       can_api_direct := false, email := "a@tedi.bj",
                                       id := 7 } }),
         .resume 0,
         .checkAuth,
         .registerReply 0
           (.resolved { api_key := some "tk_live_2",
                        data := some { is_admin := false, can_export := false,
                                       can_api_direct := false, email := "b@tedi.bj",
                                       id := 8 } }),
         .validateReply 1 (.rejected (some { status := 401, message := none })),
         .resume 1,
         .resume 0,
         .checkAuth,
         .validateReply 0
           (.resolved { valid := true, message := none,
                        data := some { is_admin := false, can_export := false,
                                       can_api_direct := true, email := "b@tedi.bj",
                                       id := 8 } }),
         .resume 0]).world.store = true :=
  (keyInfo_authenticated_reachable { entries := [] } "/login"
    [.login "tk_live_1",
     .register "body",
     .validateReply 0
       (.resolved { valid := true, message := none,
                    data := some { is_admin := false, can_export := true,
                                   can_api_direct := false, email := "a@tedi.bj",
                                   id := 7 } }),
     .resume 0,
     .checkAuth,
     .registerReply 0
       (.resolved { api_key := some "tk_live_2",
                    data := some { is_admin := false, can_export := false,
                                   can_api_direct := false, email := "b@tedi.bj",
                                   id := 8 } }),
     .validateReply 1 (.rejected (some { status := 401, message := none })),
     .resume 1,
     .resume 0,
     .checkAuth,
     .validateReply 0
       (.resolved { valid := true, message := none,
                    data := some { is_admin := false, can_export := false,
                                   can_api_direct := true, email := "b@tedi.bj",
                                   id := 8 } }),
     .resume 0]
    (by decide) (by decide)).1 (by decide)

end Tedi

/-! ## Revalidation, registration, logout -/

namespace Tedi

/-- C7: for every authenticated session (non-empty credential), when the remote
validate call rejects the current credential (answers `valid = false`, or the
call fails, with or without an HTTP response), `checkAuth()` returns `false`
and afterwards `isAuthenticated` is false, `keyInfo` is null and the persisted
`tedi_api_key` entry is absent. -/
theorem checkAuth_rejected_logs_out (w : World) (reply : Reply ValidateData)
    (hauth : isAuthenticated w.store = true) (hrej : reply.rejectsKey = true) :
    (checkAuth w reply).2 = false ∧
    isAuthenticated (checkAuth w reply).1.store = false ∧
    (checkAuth w reply).1.store.keyInfo = none ∧
    (checkAuth w reply).1.localStorage.getItem storageKey = none := by
  have hk : truthy w.store.apiKey = true := hauth
  cases reply with
  | resolved d =>
    have hv : d.valid = false := by simpa [Reply.rejectsKey] using hrej
    simp [checkAuth, send, hk, hv, logout, isAuthenticated, getItem_removeItem]
    simp [truthy]
  | rejected r =>
    simp [checkAuth, send, hk, logout, isAuthenticated, getItem_removeItem]
    simp [truthy]

/-- Witness of C7: a stored key that the remote now answers with 401. -/
theorem checkAuth_rejected_logs_out_witness :
    (checkAuth
      { store := { apiKey := "tk_live_1", keyInfo := none, loading := false, error := none }
        localStorage := { entries := [("tedi_api_key", "tk_live_1")] }
        location := "/dashboard" }
      (.rejected (some { status := 401, message := some "revoked" }))).1.store.keyInfo = none :=
  (checkAuth_rejected_logs_out
    { store := { apiKey := "tk_live_1", keyInfo := none, loading := false, error := none }
      localStorage := { entries := [("tedi_api_key", "tk_live_1")] }
      location := "/dashboard" }
    (.rejected (some { status := 401, message := some "revoked" })) (by decide) rfl).2.2.1

theorem register_success_iff (w : World) (userData : String) (d : RegisterData) :
    (register w userData (.resolved d)).2.success = true ↔
      ∃ K, d.api_key = some K ∧ K ≠ "" := by
  cases hkey : d.api_key with
  | none => simp [register, send, hkey]
  | some k =>
    by_cases hk : truthy k = true
    · have hne : k ≠ "" := (truthy_iff k).1 hk
      simp [register, send, hkey, hk, hne]
    · have he : k = "" := by simpa [truthy] using hk
      simp [register, send, hkey, he, truthy]

/-- C8: for every prior world, every user data and every successful
registration response `{api_key: K, data: D}` (one on which `register` reports
`success: true`), the world after `register(userData)` (store refs with
credential, `keyInfo`, `loading` and `error`, `localStorage`, location) equals
the world after `login(K)` from the same prior world when the remote validate
call answers `valid = true` with data `D`. -/
theorem register_same_state_as_login (w : World) (userData K : String)
    (D : Option KeyInfo) (msg : Option String)
    (hsucc : (register w userData (.resolved { api_key := some K, data := D })).2.success
      = true) :
    (register w userData (.resolved { api_key := some K, data := D })).1
      = (login w K (.resolved { valid := true, message := msg, data := D })).1 := by
  have hK : truthy K = true := by
    by_cases h : truthy K = true
    · exact h
    · simp [register, send, h] at hsucc
  simp [register, login, send, setLoading, setError, hK]

/-- Witness of C8: registration that issues `tk_live_2` on an anonymous session. -/
theorem register_same_state_as_login_witness :
    (register (initWorld { entries := [] } "/login") "body"
        (.resolved { api_key := some "tk_live_2", data := none })).1
      = (login (initWorld { entries := [] } "/login") "tk_live_2"
          (.resolved { valid := true, message := none, data := none })).1 :=
  register_same_state_as_login (initWorld { entries := [] } "/login") "body" "tk_live_2"
    none none (by decide)

/-- C9: for every target route and every world, the guard's decision is that of
the three-rule function (login redirect if the route requires authentication
and the session is not authenticated; otherwise dashboard redirect if the
target is the route named `login` and the session is authenticated; otherwise
proceed), and the guard leaves the world (store, `localStorage`, location) as
it found it. -/
theorem beforeEach_eq_decideSpec (w : World) (dest : Route) :
    beforeEach w dest
      = (w, decideSpec dest.meta.requiresAuth (dest.name == some "login")
              (isAuthenticated w.store)) := by
  unfold beforeEach decideSpec
  cases dest.meta.requiresAuth <;> cases (dest.name == some "login") <;>
    cases isAuthenticated w.store <;> rfl

/-- C10: `logout` is a total function of the world (the source has no failing
statement); for every world the result has an empty in-memory credential, null
`keyInfo` and no persisted `tedi_api_key` entry, so it is not authenticated; and
`logout` applied twice gives the world of `logout` applied once. -/
theorem logout_anonymous_idempotent (w : World) :
    (logout w).store.apiKey = "" ∧
    (logout w).store.keyInfo = none ∧
    (logout w).localStorage.getItem storageKey = none ∧
    isAuthenticated (logout w).store = false ∧
    logout (logout w) = logout w := by
  simp [logout, getItem_removeItem, removeItem_removeItem, isAuthenticated, truthy]

end Tedi

/-! ## Failure outcomes of login and register -/

namespace Tedi

theorem orString_ne_empty (x : Option String) (d : String) (hd : d ≠ "") :
    orString x d ≠ "" := by
  unfold orString
  cases x with
  | none => exact hd
  | some v =>
    by_cases hv : truthy v = true
    · simpa [hv] using (truthy_iff v).1 hv
    · simpa [hv] using hd

theorem errMessage_responseRejected (w : World) (e : AxiosError) :
    errMessage (responseRejected w e).2 = errMessage e := by
  unfold responseRejected
  split <;> rfl

theorem login_rejected_stores_message (w : World) (key : String)
    (r : Option ErrorResponse) :
    (login w key (.rejected r)).2 = false ∧
    (login w key (.rejected r)).1.store.error
      = some (orString (errMessage { config := none, response := r }) "Invalid API key") ∧
    orString (errMessage { config := none, response := r }) "Invalid API key" ≠ "" := by
  refine ⟨by simp [login, send], ?_, orString_ne_empty _ _ (by decide)⟩
  simp [login, send, setLoading, setError, errMessage_responseRejected]
  rfl

theorem register_rejected_stores_message (w : World) (userData : String)
    (r : Option ErrorResponse) :
    (register w userData (.rejected r)).2.success = false ∧
    (register w userData (.rejected r)).2.error
      = (register w userData (.rejected r)).1.store.error ∧
    (register w userData (.rejected r)).1.store.error
      = some (orString (errMessage { config := none, response := r }) "Registration failed") ∧
    orString (errMessage { config := none, response := r }) "Registration failed" ≠ "" := by
  refine ⟨by simp [register, send], by simp [register, send, setLoading, setError], ?_,
    orString_ne_empty _ _ (by decide)⟩
  simp [register, send, setLoading, setError, errMessage_responseRejected]
  rfl

/-- C11 fails on the code at two resolved replies.  `register` answered without
an `api_key` returns `{success: false, error: 'Registration failed'}` while the
store's `error` stays null, so the stored error is no message and differs from
the returned one; `login` answered `valid = false` without a `message` returns
`false` with the store's `error` null (undefined in the source).  The `catch`
branches of both actions do store a non-empty message. -/
theorem failure_leaves_error_null :
    ((register (initWorld { entries := [] } "/login") "body"
        (.resolved { api_key := none, data := none })).2
      = { success := false, data := none, error := some "Registration failed" } ∧
     (register (initWorld { entries := [] } "/login") "body"
        (.resolved { api_key := none, data := none })).1.store.error = none) ∧
    ((login (initWorld { entries := [] } "/login") "tk_bad"
        (.resolved { valid := false, message := none, data := none })).2 = false ∧
     (login (initWorld { entries := [] } "/login") "tk_bad"
        (.resolved { valid := false, message := none, data := none })).1.store.error
      = none) := by
  decide

end Tedi

/-! ## Exemption check and operation scope -/

namespace Tedi

theorem includesChars_no_slash (l : List Char) (h : '/' ∉ l) :
    includesChars l "/admin/".data = false := by
  induction l with
  | nil => decide
  | cons c cs ih =>
    have hc : c ≠ '/' := fun e => h (by simp [e])
    have hcs : '/' ∉ cs := fun m => h (List.mem_cons_of_mem c m)
    have hd : "/admin/".data = ['/', 'a', 'd', 'm', 'i', 'n', '/'] := rfl
    rw [hd] at ih ⊢
    simp [includesChars, startsWithChars, hc, ih hcs]

theorem startsWithChars_no_slash (l : List Char) (h : '/' ∉ l) :
    startsWithChars l "admin/".data = false := by
  have hd : "admin/".data = ['a', 'd', 'm', 'i', 'n', '/'] := rfl
  rw [hd]
  match l, h with
  | [], _ => rfl
  | [_], _ => simp [startsWithChars]
  | [_, _], _ => simp [startsWithChars]
  | [_, _, _], _ => simp [startsWithChars]
  | [_, _, _, _], _ => simp [startsWithChars]
  | [_, _, _, _, _], _ => simp [startsWithChars]
  | _ :: _ :: _ :: _ :: _ :: c :: _, h =>
    have hc : c ≠ '/' := fun e => h (by simp [e])
    simp [startsWithChars, hc]

theorem idSpellsAdmin_no_slash (id : String) (h : '/' ∉ id.data) :
    idSpellsAdmin id = false := by
  simp [idSpellsAdmin, includes, startsWithChars_no_slash id.data h,
    includesChars_no_slash id.data h]

theorem includes_keys_url (id : String) :
    includes ("/auth/keys/" ++ id) "/admin/" = idSpellsAdmin id := by
  have hp : "/auth/keys/".data = ['/', 'a', 'u', 't', 'h', '/', 'k', 'e', 'y', 's', '/'] := rfl
  have hd : "/admin/".data = ['/', 'a', 'd', 'm', 'i', 'n', '/'] := rfl
  have ha : "admin/".data = ['a', 'd', 'm', 'i', 'n', '/'] := rfl
  unfold idSpellsAdmin includes
  rw [String.data_append, hp, hd, ha]
  simp [includesChars, startsWithChars]

theorem isAdminEndpoint_unauthorizedOn (ls : LocalStorage) (call : ApiCall)
    (msg : Option String) (u : String) (hu : call.request.url = some u) :
    isAdminEndpoint (unauthorizedOn ls call msg) = some (includes u "/admin/") := by
  simp [isAdminEndpoint, unauthorizedOn, outgoing, requestInterceptor_url, hu]

theorem selfKeyCalls_classified (ls : LocalStorage) (msg : Option String)
    (email data id : String) (c : ApiCall) (hc : c ∈ selfKeyCalls email data id)
    (hid : idSpellsAdmin id = false) :
    isAdminEndpoint (unauthorizedOn ls c msg) = some false := by
  have hk : includes "/auth/keys" "/admin/" = false := by decide
  have hi : includes ("/auth/keys/" ++ id) "/admin/" = false := by
    rw [includes_keys_url, hid]
  simp only [selfKeyCalls, List.mem_cons, List.mem_singleton, List.mem_nil_iff,
    or_false] at hc
  rcases hc with rfl | rfl | rfl | rfl | rfl
  · rw [isAdminEndpoint_unauthorizedOn ls (.authGetKeys email) msg "/auth/keys" rfl, hk]
  · rw [isAdminEndpoint_unauthorizedOn ls (.authCreateKey data) msg "/auth/keys" rfl, hk]
  · rw [isAdminEndpoint_unauthorizedOn ls (.authGetKey id) msg ("/auth/keys/" ++ id) rfl, hi]
  · rw [isAdminEndpoint_unauthorizedOn ls (.authUpdateKey id data) msg ("/auth/keys/" ++ id)
      rfl, hi]
  · rw [isAdminEndpoint_unauthorizedOn ls (.authDeleteKey id) msg ("/auth/keys/" ++ id) rfl,
      hi]

theorem adminKeyCalls_isAdminOp (adminSecret keyId data : String) (c : ApiCall)
    (hc : c ∈ adminKeyCalls adminSecret keyId data) : c.isAdminOp = true := by
  simp only [adminKeyCalls, List.mem_cons, List.mem_singleton, List.mem_nil_iff,
    or_false] at hc
  rcases hc with rfl | rfl | rfl | rfl <;> rfl

/-- C12, as stated, fails for an identifier that spells the admin pattern:
the URL of `auth.getKey('admin/7')` is `/auth/keys/admin/7`, which contains
`/admin/`, so the interceptor classifies this self-service request as
admin-scoped and a 401 on it leaves the world (persisted credential,
location) untouched. -/
theorem self_key_url_classified_admin :
    isAdminEndpoint
      (unauthorizedOn { entries := [("tedi_api_key", "tk_live_1")] } (.authGetKey "admin/7")
        none) = some true ∧
    (responseRejected
      { store := { apiKey := "tk_live_1", keyInfo := none, loading := false, error := none }
        localStorage := { entries := [("tedi_api_key", "tk_live_1")] }
        location := "/api-keys" }
      (unauthorizedOn { entries := [("tedi_api_key", "tk_live_1")] } (.authGetKey "admin/7")
        none)).1
      = { store := { apiKey := "tk_live_1", keyInfo := none, loading := false, error := none }
          localStorage := { entries := [("tedi_api_key", "tk_live_1")] }
          location := "/api-keys" } := by
  decide

/-- C12 (amended): for every identifier `id` that neither starts with `admin/`
nor contains `/admin/` (every `id` without a `/` is such), the request URLs of
the five self-service key operations are classified as not admin-scoped, and a
401 on them removes the persisted credential and sets the location to
`/login`; for every `keyId`, secret and body the URLs of the four admin
operations are classified as admin-scoped. -/
theorem key_urls_classified_by_scope (w : World) (msg : Option String)
    (email data id adminSecret keyId : String) (hid : idSpellsAdmin id = false) :
    (∀ c ∈ selfKeyCalls email data id,
      isAdminEndpoint (unauthorizedOn w.localStorage c msg) = some false ∧
      (responseRejected w (unauthorizedOn w.localStorage c msg)).1.localStorage.getItem
        storageKey = none ∧
      (responseRejected w (unauthorizedOn w.localStorage c msg)).1.location = "/login") ∧
    (∀ c ∈ adminKeyCalls adminSecret keyId data,
      isAdminEndpoint (unauthorizedOn w.localStorage c msg) = some true) ∧
    (∀ s : String, '/' ∉ s.data → idSpellsAdmin s = false) := by
  refine ⟨fun c hc => ?_, fun c hc => ?_, idSpellsAdmin_no_slash⟩
  · have h := selfKeyCalls_classified w.localStorage msg email data id c hc hid
    have hu : isUnauthorized (unauthorizedOn w.localStorage c msg) = true := by
      simp [isUnauthorized, unauthorizedOn]
    refine ⟨h, ?_, ?_⟩ <;> simp [responseRejected, hu, h, getItem_removeItem]
  · exact isAdminEndpoint_outgoing_admin w.localStorage c _
      (adminKeyCalls_isAdminOp adminSecret keyId data c hc)

/-- Witness of C12 (amended): a 401 on `auth.deleteKey('42')` tears the session
down. -/
theorem key_urls_classified_by_scope_witness :
    (responseRejected
      { store := { apiKey := "tk_live_1", keyInfo := none, loading := false, error := none }
        localStorage := { entries := [("tedi_api_key", "tk_live_1")] }
        location := "/api-keys" }
      (unauthorizedOn { entries := [("tedi_api_key", "tk_live_1")] } (.authDeleteKey "42")
        none)).1.location = "/login" :=
  ((key_urls_classified_by_scope
    { store := { apiKey := "tk_live_1", keyInfo := none, loading := false, error := none }
      localStorage := { entries := [("tedi_api_key", "tk_live_1")] }
      location := "/api-keys" }
    none "a@tedi.bj" "body" "42" "s3cret" "9" (by decide)).1
      (.authDeleteKey "42") (by decide)).2.2

end Tedi

/-! ## The guard on the route table -/

namespace Tedi

theorem beforeEach_anonymous (w : World) (dest : Route)
    (h : isAuthenticated w.store = false) :
    (beforeEach w dest).2
      = if dest.meta.requiresAuth then .redirect "login" else .proceed := by
  unfold beforeEach
  cases dest.meta.requiresAuth <;> simp [h]

theorem beforeEach_authenticated (w : World) (dest : Route)
    (h : isAuthenticated w.store = true) :
    (beforeEach w dest).2
      = if dest.name == some "login" then .redirect "dashboard" else .proceed := by
  unfold beforeEach
  cases dest.name == some "login" <;> simp [h]

/-- C13: for every target route (those of the declared route table included)
and every world, if the guard redirects to a route name, then the table has a
route of that name, and the guard applied to any route of the table with that
name in the same world proceeds; so a redirect is never followed by a second
one. -/
theorem beforeEach_redirects_once (w : World) (r : Route) (name : String)
    (hred : (beforeEach w r).2 = .redirect name) :
    (∃ r' ∈ routes, r'.name = some name) ∧
    (∀ r' ∈ routes, r'.name = some name → (beforeEach w r').2 = .proceed) := by
  cases hauth : isAuthenticated w.store with
  | false =>
    rw [beforeEach_anonymous w r hauth] at hred
    have hname : name = "login" := by
      cases hm : r.meta.requiresAuth with
      | false => simp [hm] at hred
      | true =>
        simp only [hm, if_true, Navigation.redirect.injEq] at hred
        exact hred.symm
    subst hname
    refine ⟨⟨{ path := "/login", name := some "login", meta := { requiresAuth := false } },
      by decide, rfl⟩, fun r' hr' hn => ?_⟩
    rw [beforeEach_anonymous w r' hauth]
    simp only [routes, List.mem_cons, List.mem_singleton, List.mem_nil_iff, or_false] at hr'
    rcases hr' with rfl | rfl | rfl | rfl | rfl | rfl | rfl | rfl | rfl | rfl | rfl | rfl |
      rfl | rfl | rfl | rfl | rfl | rfl <;> first | rfl | (exact absurd hn (by decide))
  | true =>
    rw [beforeEach_authenticated w r hauth] at hred
    have hname : name = "dashboard" := by
      cases hm : (r.name == some "login") with
      | false => simp [hm] at hred
      | true =>
        simp only [hm, if_true, Navigation.redirect.injEq] at hred
        exact hred.symm
    subst hname
    refine ⟨⟨{ path := "/dashboard", name := some "dashboard",
               meta := { requiresAuth := true } },
      by decide, rfl⟩, fun r' hr' hn => ?_⟩
    rw [beforeEach_authenticated w r' hauth]
    simp [hn]

/-- Witness of C13: an anonymous visitor asking for `/dashboard` is sent to
`login`, where the guard proceeds. -/
theorem beforeEach_redirects_once_witness :
    (beforeEach (initWorld { entries := [] } "/")
      { path := "/login", name := some "login", meta := { requiresAuth := false } }).2
      = .proceed :=
  (beforeEach_redirects_once (initWorld { entries := [] } "/")
    { path := "/dashboard", name := some "dashboard", meta := { requiresAuth := true } }
    "login" (by decide)).2
    { path := "/login", name := some "login", meta := { requiresAuth := false } }
    (by decide) rfl

end Tedi

/-! ## formatPrice and its documented examples -/

namespace Tedi

/-- C14 fails on the code: of the four documented examples only the second
holds.  `formatPrice(1500)` is `1.5k` (documented `1 500`),
`formatPrice(15000)` is `15k`, `formatPrice(1500000)` is `1.5M` (documented
`1 500k`) and `formatPrice(1500000000)` is `1.5B` (documented `1 500M`). -/
theorem formatPrice_documented_examples :
    formatPriceExamples.map (fun e => (formatPrice (some (JsNumber.ofNat e.1)), e.2))
      = [("1.5k", "1 500"), ("15k", "15k"), ("1.5M", "1 500k"), ("1.5B", "1 500M")] := by
  decide

end Tedi
